import Mathlib

/-!
Verification of the IP-XACT dependency-graph tracker core.

This file gives a shallow embedding of the repository's core modules
(`model.py`, `graph_manager.py`, `mapping_validator.py`, `change_detector.py`)
and proves properties of the embedded operations.

Conventions used throughout:
* Python dicts are embedded as association lists `List (String × β)` in
  insertion order (keys unique in every reachable state, as in Python).
* Python exceptions are embedded explicitly: a mutating operation returns
  `State × Option PyErr`, where the returned state reflects exactly the
  mutations performed before the raise (so atomicity is a theorem, not an
  assumption).
* Machine floats that only ever hold small decimals (coverage percentages,
  timestamps) are embedded as rationals.
* The quote character inside message strings is written with the escape
  `\x27`, and `→` is kept verbatim, mirroring the Python f-strings.
-/

deriving instance DecidableEq for Except

/-- A scalar value as stored in Python dict-typed fields (`metadata`,
`mapping_details` entries, `details`). -/
inductive PyVal where
  | pNone : PyVal
  | pStr (s : String) : PyVal
  | pNum (q : ℚ) : PyVal
  | pBool (b : Bool) : PyVal
  | pStrList (l : List String) : PyVal
deriving DecidableEq

/-- Node kinds, from `model.py` `NodeType`. -/
inductive NodeType where
  | IPXACT_COMPONENT | IPXACT_DESIGN | IPXACT_DESIGN_CONFIG
  | IPXACT_ABSTRACTION_DEF | IPXACT_CATALOG | IPXACT_GENERATOR_CHAIN
  | SDC_CONSTRAINT | UPF_POWER | CDC_CONSTRAINT | RESET_SCHEME
  | RTL_SOURCE | FPGA_SOURCE | RTL_WRAPPER | RTL_FILELIST
  | REGISTER_MAP | UVM_RAL_MODEL | C_HEADER | REGISTER_DOC
  | MEMORY_MAP | LINKER_SCRIPT | ADDRESS_DECODE
  | BUS_VIP_CONFIG | PROTOCOL_CHECKER | TESTBENCH_TOP
  | PIN_MAPPING | FLOORPLAN_CONSTRAINT | IO_PAD_CONFIG | DEF_LEF_CONSTRAINT
  | EDA_SCRIPT | VENDOR_EXTENSION | CONFIG_PARAM | DOCUMENTATION
deriving DecidableEq

/-- The `.value` string of each `NodeType` member. -/
def NodeType.value : NodeType → String
  | .IPXACT_COMPONENT => "ipxact_component"
  | .IPXACT_DESIGN => "ipxact_design"
  | .IPXACT_DESIGN_CONFIG => "ipxact_design_config"
  | .IPXACT_ABSTRACTION_DEF => "ipxact_abstraction_def"
  | .IPXACT_CATALOG => "ipxact_catalog"
  | .IPXACT_GENERATOR_CHAIN => "ipxact_generator_chain"
  | .SDC_CONSTRAINT => "sdc_constraint"
  | .UPF_POWER => "upf_power"
  | .CDC_CONSTRAINT => "cdc_constraint"
  | .RESET_SCHEME => "reset_scheme"
  | .RTL_SOURCE => "rtl_source"
  | .FPGA_SOURCE => "fpga_source"
  | .RTL_WRAPPER => "rtl_wrapper"
  | .RTL_FILELIST => "rtl_filelist"
  | .REGISTER_MAP => "register_map"
  | .UVM_RAL_MODEL => "uvm_ral_model"
  | .C_HEADER => "c_header"
  | .REGISTER_DOC => "register_doc"
  | .MEMORY_MAP => "memory_map"
  | .LINKER_SCRIPT => "linker_script"
  | .ADDRESS_DECODE => "address_decode"
  | .BUS_VIP_CONFIG => "bus_vip_config"
  | .PROTOCOL_CHECKER => "protocol_checker"
  | .TESTBENCH_TOP => "testbench_top"
  | .PIN_MAPPING => "pin_mapping"
  | .FLOORPLAN_CONSTRAINT => "floorplan_constraint"
  | .IO_PAD_CONFIG => "io_pad_config"
  | .DEF_LEF_CONSTRAINT => "def_lef_constraint"
  | .EDA_SCRIPT => "eda_script"
  | .VENDOR_EXTENSION => "vendor_extension"
  | .CONFIG_PARAM => "config_param"
  | .DOCUMENTATION => "documentation"

/-- Edge kinds, from `model.py` `EdgeType`. -/
inductive EdgeType where
  | GENERATES | CONSTRAINS | REFERENCES | MAPS_TO | DERIVES_FROM
  | CONFIGURES | INSTANTIATES | ABSTRACTS | VALIDATES
deriving DecidableEq

/-- The `.value` string of each `EdgeType` member. -/
def EdgeType.value : EdgeType → String
  | .GENERATES => "generates"
  | .CONSTRAINS => "constrains"
  | .REFERENCES => "references"
  | .MAPS_TO => "maps_to"
  | .DERIVES_FROM => "derives_from"
  | .CONFIGURES => "configures"
  | .INSTANTIATES => "instantiates"
  | .ABSTRACTS => "abstracts"
  | .VALIDATES => "validates"

/-- Domains, from `model.py` `Domain`. -/
inductive Domain where
  | FRONTEND | VERIFICATION | DFT | PHYSICAL_DESIGN | SIGNOFF
  | FPGA_TRANSLATION | FIRMWARE | GLOBAL
deriving DecidableEq

/-- The `.value` string of each `Domain` member. -/
def Domain.value : Domain → String
  | .FRONTEND => "frontend_design"
  | .VERIFICATION => "verification"
  | .DFT => "dft"
  | .PHYSICAL_DESIGN => "physical_design"
  | .SIGNOFF => "signoff"
  | .FPGA_TRANSLATION => "fpga_translation"
  | .FIRMWARE => "firmware"
  | .GLOBAL => "global"

/-- One entry of the `EXPECTED_MAPPING_FIELDS` schema table (`model.py`).
`conditional` defaults to `False` in the source dicts (read back with
`schema.get("conditional", False)`). -/
structure MappingSchema where
  category : String
  required_fields : List String
  description : String
  conditional : Bool := false
deriving DecidableEq

/-- `EXPECTED_MAPPING_FIELDS` from `model.py`, keyed by
(source node type, target node type). -/
def EXPECTED_MAPPING_FIELDS : List ((NodeType × NodeType) × List MappingSchema) := [
  ((.IPXACT_COMPONENT, .SDC_CONSTRAINT), [
    { category := "clock_domain",
      required_fields := ["ipxact_clock_port", "sdc_clock_name", "period_ns",
                          "uncertainty_setup", "uncertainty_hold"],
      description := "Each IP-XACT clock port must map to a create_clock command" },
    { category := "io_timing",
      required_fields := ["ipxact_port", "sdc_command", "clock_domain",
                          "max_delay", "min_delay"],
      description := "Each I/O port must have input/output delay constraints" },
    { category := "false_path",
      required_fields := ["ipxact_port_or_domain", "sdc_false_path_spec"],
      description := "Async signals (resets, async inputs) must have false paths" },
    { category := "clock_group",
      required_fields := ["group_name", "clock_list", "relationship"],
      description := "Multiple clocks must define clock groups (async/exclusive)",
      conditional := true },
    { category := "multicycle_path",
      required_fields := ["from_signal", "to_signal", "multiplier", "clock_domain"],
      description := "Multicycle paths between slow/fast domains",
      conditional := true }]),
  ((.IPXACT_COMPONENT, .UPF_POWER), [
    { category := "power_domain",
      required_fields := ["ipxact_component", "upf_power_domain",
                          "supply_net_vdd", "supply_net_vss"],
      description := "Each component must map to a power domain" },
    { category := "isolation_strategy",
      required_fields := ["power_domain", "isolation_signal",
                          "isolation_sense", "isolation_location"],
      description := "Isolation cells for domain boundaries",
      conditional := true },
    { category := "retention_strategy",
      required_fields := ["power_domain", "retention_signal",
                          "retention_registers"],
      description := "Retention strategy for power-gated domains",
      conditional := true },
    { category := "level_shifter",
      required_fields := ["from_domain", "to_domain", "shifter_type"],
      description := "Level shifters between voltage domains",
      conditional := true }]),
  ((.IPXACT_COMPONENT, .RTL_WRAPPER), [
    { category := "port_naming",
      required_fields := ["ipxact_port", "rtl_port", "direction", "width"],
      description := "Every IP-XACT port must map to an RTL port" }]),
  ((.IPXACT_COMPONENT, .CDC_CONSTRAINT), [
    { category := "cdc_crossing",
      required_fields := ["from_clock_domain", "to_clock_domain",
                          "crossing_type", "sync_scheme"],
      description := "Each clock domain crossing must be documented" }]),
  ((.IPXACT_COMPONENT, .RESET_SCHEME), [
    { category := "reset_domain",
      required_fields := ["ipxact_reset_port", "reset_domain",
                          "polarity", "sync_async"],
      description := "Each reset port maps to a reset domain" },
    { category := "reset_constraint",
      required_fields := ["reset_domain", "associated_clock",
                          "deassert_timing"],
      description := "Reset deassertion timing relative to clock" }]),
  ((.IPXACT_COMPONENT, .REGISTER_MAP), [
    { category := "register_block",
      required_fields := ["register_name", "offset", "width",
                          "access_type", "reset_value"],
      description := "Each register in IP-XACT memory map must be mapped" },
    { category := "address_space",
      required_fields := ["address_space_name", "base_address",
                          "range", "bus_interface"],
      description := "Address space mapping for each bus interface" }]),
  ((.REGISTER_MAP, .UVM_RAL_MODEL), [
    { category := "register_block",
      required_fields := ["register_name", "ral_class_name",
                          "access_type", "field_list"],
      description := "Each register must produce a RAL register class" }]),
  ((.REGISTER_MAP, .C_HEADER), [
    { category := "register_block",
      required_fields := ["register_name", "c_define_name",
                          "offset_hex", "field_masks"],
      description := "Each register must produce C #defines" }]),
  ((.IPXACT_COMPONENT, .PIN_MAPPING), [
    { category := "pin_assignment",
      required_fields := ["ipxact_port", "physical_pin",
                          "pad_type", "io_standard"],
      description := "Each top-level port must map to a physical pin" }]),
  ((.IPXACT_DESIGN, .FLOORPLAN_CONSTRAINT), [
    { category := "hierarchy_mapping",
      required_fields := ["instance_name", "component_ref",
                          "placement_region", "area_estimate"],
      description := "Each instance must have placement constraints" }]),
  ((.IPXACT_COMPONENT, .RTL_FILELIST), [
    { category := "filelist_entry",
      required_fields := ["file_path", "file_type", "compile_order"],
      description := "All source files listed with correct compile order" }]),
  ((.IPXACT_COMPONENT, .BUS_VIP_CONFIG), [
    { category := "bus_interface",
      required_fields := ["bus_interface_name", "protocol",
                          "vip_type", "config_params"],
      description := "Each bus interface must have VIP configuration" }]),
  ((.FPGA_SOURCE, .IPXACT_COMPONENT), [
    { category := "port_naming",
      required_fields := ["customer_port", "ipxact_port",
                          "direction", "width", "rename_reason"],
      description := "Each customer FPGA port maps to standardised IP-XACT port" },
    { category := "clock_domain",
      required_fields := ["customer_clock", "ipxact_clock_domain",
                          "frequency_mhz"],
      description := "Customer clock signals map to IP-XACT clock domains" },
    { category := "reset_domain",
      required_fields := ["customer_reset", "ipxact_reset_domain",
                          "polarity"],
      description := "Customer reset signals map to IP-XACT reset domains" }]),
  ((.SDC_CONSTRAINT, .SDC_CONSTRAINT), [
    { category := "clock_domain",
      required_fields := ["source_clock", "target_clock_reference",
                          "false_path_defined"],
      description := "DFT/signoff SDC must reference same clocks as main SDC" }]),
  ((.IPXACT_COMPONENT, .MEMORY_MAP), [
    { category := "memory_map_mapping",
      required_fields := ["memory_map_name", "address_block",
                          "base_address", "range"],
      description := "Each IP-XACT memory map must produce decode logic" }]),
  ((.MEMORY_MAP, .ADDRESS_DECODE), [
    { category := "address_space",
      required_fields := ["address_block", "decode_select_signal",
                          "base_address", "range"],
      description := "Each address block needs decode logic" }]),
  ((.MEMORY_MAP, .LINKER_SCRIPT), [
    { category := "address_space",
      required_fields := ["memory_region", "origin_address",
                          "length", "access_permissions"],
      description := "Each memory region maps to linker MEMORY section" }]),
  ((.IPXACT_ABSTRACTION_DEF, .BUS_VIP_CONFIG), [
    { category := "bus_interface",
      required_fields := ["abstraction_name", "protocol_version",
                          "port_map_list", "vip_parameter_overrides"],
      description := "Abstraction definition drives VIP parameterisation" }]),
  ((.IPXACT_ABSTRACTION_DEF, .PROTOCOL_CHECKER), [
    { category := "bus_interface",
      required_fields := ["abstraction_name", "checker_rules",
                          "port_connections"],
      description := "Abstraction drives protocol checker configuration" }])]

/-- `IPXACT_ELEMENT_EXPECTED_OUTPUTS` from `model.py`: for each element
category declared on a node, the downstream node kinds an edge must reach. -/
def IPXACT_ELEMENT_EXPECTED_OUTPUTS : List (String × List NodeType) := [
  ("clocks", [.SDC_CONSTRAINT, .CDC_CONSTRAINT]),
  ("resets", [.RESET_SCHEME, .SDC_CONSTRAINT]),
  ("bus_interfaces", [.BUS_VIP_CONFIG, .RTL_WRAPPER]),
  ("memory_maps", [.REGISTER_MAP, .UVM_RAL_MODEL, .C_HEADER,
                   .REGISTER_DOC, .ADDRESS_DECODE]),
  ("ports", [.RTL_WRAPPER, .RTL_FILELIST, .DOCUMENTATION]),
  ("power_domains", [.UPF_POWER]),
  ("top_level_ports", [.PIN_MAPPING])]

/-- `ArtifactNode` from `model.py` (the `_file_hash` / `_last_checked` caches
are write-only in the embedded flows and are omitted). -/
structure ArtifactNode where
  node_id : String
  name : String
  node_type : NodeType
  domain : Domain
  file_path : Option String := none
  description : String := ""
  eda_tool : String := ""
  version : String := "1.0"
  tags : List String := []
  metadata : List (String × PyVal) := []
  defined_elements : List (String × List String) := []
deriving DecidableEq

/-- `DependencyEdge` from `model.py`. -/
structure DependencyEdge where
  source_id : String
  target_id : String
  edge_type : EdgeType
  label : String := ""
  domain : Domain := .GLOBAL
  metadata : List (String × PyVal) := []
  mapping_details : List (List (String × PyVal)) := []
deriving DecidableEq

/-- `DependencyEdge.edge_id` from `model.py`. -/
def DependencyEdge.edge_id (e : DependencyEdge) : String :=
  e.source_id ++ "--" ++ e.edge_type.value ++ "-->" ++ e.target_id

/-- Lookup in a Python dict embedded as an association list in insertion
order: the first binding for the key (Python keys are unique anyway). -/
def dlookup {α β : Type} [DecidableEq α] (l : List (α × β)) (k : α) : Option β :=
  match l with
  | [] => none
  | (k', v) :: rest => if k' = k then some v else dlookup rest k

/-- The keys of an embedded dict. -/
def dkeys {α β : Type} (l : List (α × β)) : List α :=
  l.map Prod.fst

/-- Python exceptions raised by the embedded operations. -/
inductive PyErr where
  | keyError (msg : String) : PyErr
  | valueError (msg : String) : PyErr
  | runtimeError (msg : String) : PyErr
  | networkxError (msg : String) : PyErr
deriving DecidableEq

/-- Attributes stored on a `networkx` edge by `GraphManager.add_edge`. -/
structure NXAttrs where
  edge_type : String
  label : String
  domain : String
deriving DecidableEq

/-- State of a `GraphManager` (`graph_manager.py`): the `_nodes` and
`_edges` dicts plus the `networkx` `DiGraph` `_graph` (node set and the
at-most-one-per-ordered-pair edge set with attributes; the node attributes
of `_graph` are never read back and are omitted). -/
structure GraphManager where
  nodes : List (String × ArtifactNode)
  edges : List (String × DependencyEdge)
  nx_nodes : List String
  nx_edges : List (String × String × NXAttrs)
deriving DecidableEq

/-- A fresh `GraphManager()`. -/
def GraphManager.empty : GraphManager := ⟨[], [], [], []⟩

/-- `networkx` `add_node`: no-op when the node already exists. -/
def nxAddNode (nx : List String) (id : String) : List String :=
  if id ∈ nx then nx else nx ++ [id]

/-- `networkx` `DiGraph.add_edge`: updates the attributes in place when the
ordered pair already has an edge, otherwise appends a new edge. -/
def nxAddEdge (l : List (String × String × NXAttrs)) (s t : String)
    (a : NXAttrs) : List (String × String × NXAttrs) :=
  if l.any (fun q => q.1 == s && q.2.1 == t) then
    l.map (fun q => if q.1 = s ∧ q.2.1 = t then (s, t, a) else q)
  else l ++ [(s, t, a)]

/-- `GraphManager.add_node`.  Returns the state after the call together with
the exception raised, if any; the state reflects exactly the mutations
performed before a raise. -/
def GraphManager.add_node (g : GraphManager) (node : ArtifactNode) :
    GraphManager × Option PyErr :=
  if node.node_id ∈ dkeys g.nodes then
    (g, some (.valueError ("Node \x27" ++ node.node_id ++
      "\x27 already exists. Use update_node().")))
  else
    ({ g with nodes := g.nodes ++ [(node.node_id, node)],
              nx_nodes := nxAddNode g.nx_nodes node.node_id }, none)

/-- `GraphManager.update_node`: replaces the stored node in place. -/
def GraphManager.update_node (g : GraphManager) (node : ArtifactNode) :
    GraphManager × Option PyErr :=
  if node.node_id ∈ dkeys g.nodes then
    ({ g with nodes := g.nodes.map
                 (fun p => if p.1 = node.node_id then (p.1, node) else p) },
     none)
  else
    (g, some (.keyError ("Node \x27" ++ node.node_id ++ "\x27 not found.")))

/-- `GraphManager.remove_node`: removes the node and every edge touching it
from the `_edges` dict and from the `networkx` graph. -/
def GraphManager.remove_node (g : GraphManager) (node_id : String) :
    GraphManager × Option PyErr :=
  if node_id ∈ dkeys g.nodes then
    let edges' := g.edges.filter
      (fun p => !(p.2.source_id == node_id || p.2.target_id == node_id))
    if node_id ∈ g.nx_nodes then
      ({ nodes := g.nodes.filter (fun p => p.1 ≠ node_id),
         edges := edges',
         nx_nodes := g.nx_nodes.filter (fun x => x ≠ node_id),
         nx_edges := g.nx_edges.filter
           (fun q => !(q.1 == node_id || q.2.1 == node_id)) }, none)
    else
      -- `_graph.remove_node` raises after `_edges` was already pruned
      ({ g with edges := edges' },
       some (.networkxError ("The node " ++ node_id ++ " is not in the digraph.")))
  else
    (g, some (.keyError ("Node \x27" ++ node_id ++ "\x27 not found.")))

/-- `GraphManager.add_edge`: checks both endpoints and edge-id freshness
before any mutation, then inserts into `_edges` and the `networkx` graph. -/
def GraphManager.add_edge (g : GraphManager) (edge : DependencyEdge) :
    GraphManager × Option PyErr :=
  if edge.source_id ∉ dkeys g.nodes then
    (g, some (.keyError ("Source node \x27" ++ edge.source_id ++ "\x27 not found.")))
  else if edge.target_id ∉ dkeys g.nodes then
    (g, some (.keyError ("Target node \x27" ++ edge.target_id ++ "\x27 not found.")))
  else if edge.edge_id ∈ dkeys g.edges then
    (g, some (.valueError ("Edge \x27" ++ edge.edge_id ++ "\x27 already exists.")))
  else
    ({ g with edges := g.edges ++ [(edge.edge_id, edge)],
              nx_nodes := nxAddNode (nxAddNode g.nx_nodes edge.source_id)
                edge.target_id,
              nx_edges := nxAddEdge g.nx_edges edge.source_id edge.target_id
                ⟨edge.edge_type.value, edge.label, edge.domain.value⟩ }, none)

/-- `GraphManager.remove_edge`: deletes the keyed entry from `_edges`, then
removes the `networkx` edge for the ordered pair (which raises when the pair
has no edge left — after `_edges` was already mutated). -/
def GraphManager.remove_edge (g : GraphManager) (source_id target_id : String)
    (edge_type : EdgeType) : GraphManager × Option PyErr :=
  let eid := source_id ++ "--" ++ edge_type.value ++ "-->" ++ target_id
  if eid ∈ dkeys g.edges then
    let g1 := { g with edges := g.edges.filter (fun p => p.1 ≠ eid) }
    if g.nx_edges.any (fun q => q.1 == source_id && q.2.1 == target_id) then
      ({ g1 with nx_edges := g1.nx_edges.filter
                   (fun q => !(q.1 == source_id && q.2.1 == target_id)) },
       none)
    else
      (g1, some (.networkxError ("The edge " ++ source_id ++ "-" ++ target_id ++
        " is not in the graph.")))
  else
    (g, some (.keyError ("Edge \x27" ++ eid ++ "\x27 not found.")))

/-- `GraphManager.get_edges_from`: all stored edges with the given source. -/
def GraphManager.get_edges_from (g : GraphManager) (node_id : String) :
    List DependencyEdge :=
  (g.edges.map Prod.snd).filter (fun e => e.source_id == node_id)

/-- `GraphManager.get_edges_to`: all stored edges with the given target. -/
def GraphManager.get_edges_to (g : GraphManager) (node_id : String) :
    List DependencyEdge :=
  (g.edges.map Prod.snd).filter (fun e => e.target_id == node_id)

/-- `GraphManager.successors`: targets of the `networkx` edges leaving a node. -/
def GraphManager.successors (g : GraphManager) (node_id : String) : List String :=
  (g.nx_edges.filter (fun q => q.1 == node_id)).map (fun q => q.2.1)

/-- `GraphManager.predecessors`: sources of the `networkx` edges entering a node. -/
def GraphManager.predecessors (g : GraphManager) (node_id : String) : List String :=
  (g.nx_edges.filter (fun q => q.2.1 == node_id)).map (fun q => q.1)

/-- Python `repr` of a list of strings, as interpolated into f-strings
(e.g. `['a', 'b']`). -/
def pyReprStrList (l : List String) : String :=
  "[" ++ String.intercalate ", " (l.map (fun s => "\x27" ++ s ++ "\x27")) ++ "]"

/-- Python `round(q, 1)` on the small decimal values that occur here. -/
def pyRound1 (q : ℚ) : ℚ := (round (10 * q) : ℤ) / 10

/-- `ValidationItem` from `mapping_validator.py`.  Severities are the strings
`"PASS"`, `"WARNING"`, `"FAIL"`, `"INFO"` exactly as in the source. -/
structure ValidationItem where
  severity : String
  category : String
  node_id : String
  target_id : String := ""
  mapping_category : String := ""
  message : String := ""
  details : List (String × PyVal) := []
deriving DecidableEq

/-- `ValidationReport` from `mapping_validator.py`.  The
`time.time()` default of the `timestamp` field is supplied explicitly by the
caller (shallow embedding of the wall clock). -/
structure ValidationReport where
  timestamp : ℚ
  items : List ValidationItem := []
deriving DecidableEq

/-- `ValidationReport.passes`. -/
def ValidationReport.passes (r : ValidationReport) : List ValidationItem :=
  r.items.filter (fun i => i.severity == "PASS")

/-- `ValidationReport.warnings`. -/
def ValidationReport.warnings (r : ValidationReport) : List ValidationItem :=
  r.items.filter (fun i => i.severity == "WARNING")

/-- `ValidationReport.failures`. -/
def ValidationReport.failures (r : ValidationReport) : List ValidationItem :=
  r.items.filter (fun i => i.severity == "FAIL")

/-- `ValidationReport.is_valid`: no FAIL items. -/
def ValidationReport.is_valid (r : ValidationReport) : Bool :=
  r.failures.length == 0

/-- `ValidationReport.coverage_pct`. -/
def ValidationReport.coverage_pct (r : ValidationReport) : ℚ :=
  let total := r.passes.length + r.failures.length
  if total = 0 then 100
  else pyRound1 (100 * (r.passes.length : ℚ) / (total : ℚ))

/-- The category used for grouping an item in `ValidationReport.summary`:
`item.mapping_category or item.category`. -/
def itemCat (i : ValidationItem) : String :=
  if i.mapping_category ≠ "" then i.mapping_category else i.category

/-- One step of the `cat_stats` accumulation in `ValidationReport.summary`. -/
def bumpCat (acc : List (String × Nat × Nat)) (cat : String) (isPass : Bool) :
    List (String × Nat × Nat) :=
  if cat ∈ dkeys acc then
    acc.map (fun p => if p.1 = cat then
      (p.1, if isPass then (p.2.1 + 1, p.2.2) else (p.2.1, p.2.2 + 1)) else p)
  else
    acc ++ [(cat, if isPass then (1, 0) else (0, 1))]

/-- The `cat_stats` dict built by `ValidationReport.summary`: per category,
its PASS and FAIL counts, in order of first occurrence. -/
def catStats (items : List ValidationItem) : List (String × Nat × Nat) :=
  items.foldl
    (fun acc i =>
      if i.severity == "PASS" || i.severity == "FAIL" then
        bumpCat acc (itemCat i) (i.severity == "PASS")
      else acc)
    []

/-- The dict produced by `ValidationReport.summary`, as a structure. -/
structure ReportSummary where
  timestamp : ℚ
  overall_valid : Bool
  overall_coverage_pct : ℚ
  total_checks : Nat
  passes : Nat
  warnings : Nat
  failures : Nat
  /-- per category: (pass count, fail count, coverage percentage) -/
  category_coverage : List (String × Nat × Nat × ℚ)
  /-- per failure: (node, target, category, message) -/
  failure_details : List (String × String × String × String)
deriving DecidableEq

/-- `ValidationReport.summary`. -/
def ValidationReport.summary (r : ValidationReport) : ReportSummary :=
  { timestamp := r.timestamp
    overall_valid := r.is_valid
    overall_coverage_pct := r.coverage_pct
    total_checks := r.items.length
    passes := r.passes.length
    warnings := r.warnings.length
    failures := r.failures.length
    category_coverage := (catStats r.items).map (fun p =>
      let total : ℕ := p.2.1 + p.2.2
      (p.1, p.2.1, p.2.2,
       if total > 0 then pyRound1 (100 * (p.2.1 : ℚ) / (total : ℚ)) else 100))
    failure_details := r.failures.map (fun f =>
      (f.node_id, f.target_id, itemCat f, f.message)) }

/-- `ValidationReport.summary` with the `timestamp` field projected away
(every wall-clock-independent field of the serialized report). -/
def summaryNoTimestamp (r : ValidationReport) :
    Bool × ℚ × Nat × Nat × Nat × Nat × List (String × Nat × Nat × ℚ) ×
      List (String × String × String × String) :=
  let s := r.summary
  (s.overall_valid, s.overall_coverage_pct, s.total_checks, s.passes,
   s.warnings, s.failures, s.category_coverage, s.failure_details)

/-- The element categories declared by a node, looked up in
`IPXACT_ELEMENT_EXPECTED_OUTPUTS` (`.get(element_key, [])`). -/
def expectedOutputsOf (element_key : String) : List NodeType :=
  (dlookup IPXACT_ELEMENT_EXPECTED_OUTPUTS element_key).getD []

/-- The node types reachable through one outgoing edge of `node_id` whose
target is present in `_nodes` (`target_types` in `_level1_structural`). -/
def targetTypesOf (g : GraphManager) (node_id : String) : List NodeType :=
  (g.get_edges_from node_id).filterMap
    (fun e => (dlookup g.nodes e.target_id).map (fun n => n.node_type))

/-- The WARNING emitted by Level 1 for an inventory-less IP-XACT node. -/
def level1NoElemsWarning (nid : String) (node : ArtifactNode) : ValidationItem :=
  { severity := "WARNING", category := "structural", node_id := nid,
    message := "IP-XACT node \x27" ++ node.name ++ "\x27 has no defined_elements. " ++
      "Cannot validate structural completeness. " ++
      "Populate defined_elements dict with clocks, resets, " ++
      "bus_interfaces, memory_maps, ports, power_domains." }

/-- The PASS item emitted by Level 1 for one (category, expected kind) pair. -/
def level1PassItem (nid : String) (node : ArtifactNode) (element_key : String)
    (expected_type : NodeType) : ValidationItem :=
  { severity := "PASS", category := "structural", node_id := nid,
    mapping_category := element_key,
    message := "Edge exists: " ++ node.name ++ " → " ++ expected_type.value }

/-- The FAIL item emitted by Level 1 for one (category, expected kind) pair:
its message names the declared element values and the missing target kind. -/
def level1FailItem (nid : String) (node : ArtifactNode) (element_key : String)
    (element_values : List String) (expected_type : NodeType) : ValidationItem :=
  { severity := "FAIL", category := "structural", node_id := nid,
    mapping_category := element_key,
    message := "MISSING EDGE: \x27" ++ node.name ++ "\x27 defines " ++ element_key ++
      " (" ++ pyReprStrList element_values ++ ") but has NO edge to any " ++
      expected_type.value ++ " node. This mapping must be " ++
      "established to prevent downstream errors.",
    details := [("element_key", .pStr element_key),
                ("element_values", .pStrList element_values),
                ("expected_target_type", .pStr expected_type.value)] }

/-- Level-1 processing of one element category of one node: one item per
expected target kind, except that the CDC requirement is suppressed for one
or fewer declared clocks. -/
def level1CatItems (g : GraphManager) (nid : String) (node : ArtifactNode)
    (element_key : String) (element_values : List String) : List ValidationItem :=
  if element_values.isEmpty then []
  else
    (expectedOutputsOf element_key).flatMap (fun expected_type =>
      if expected_type = .CDC_CONSTRAINT ∧ element_key = "clocks" ∧
          element_values.length ≤ 1 then []
      else if expected_type ∈ targetTypesOf g nid then
        [level1PassItem nid node element_key expected_type]
      else
        [level1FailItem nid node element_key element_values expected_type])

/-- Level-1 processing of one node (`_level1_structural` loop body). -/
def level1NodeItems (g : GraphManager) (nid : String) (node : ArtifactNode) :
    List ValidationItem :=
  if node.node_type = .IPXACT_COMPONENT ∨ node.node_type = .IPXACT_DESIGN then
    if node.defined_elements.isEmpty then [level1NoElemsWarning nid node]
    else node.defined_elements.flatMap
      (fun p => level1CatItems g nid node p.1 p.2)
  else []

/-- `MappingValidator._level1_structural`: the items it appends, in order. -/
def level1_structural (g : GraphManager) : List ValidationItem :=
  g.nodes.flatMap (fun p => level1NodeItems g p.1 p.2)

/-- Whether a required field is missing from a mapping-detail entry in the
sense of `_level2_field_completeness`: absent, `None`, or the empty string. -/
def fieldMissingIn (entry : List (String × PyVal)) (f : String) : Bool :=
  match dlookup entry f with
  | none => true
  | some .pNone => true
  | some (.pStr s) => s == ""
  | some _ => false

/-- The INFO item emitted by Level 2 when no schema covers an edge's
(source kind, target kind) pair. -/
def level2InfoItem (src tgt : ArtifactNode) (edge : DependencyEdge) :
    ValidationItem :=
  { severity := "INFO", category := "field_level", node_id := edge.source_id,
    target_id := edge.target_id,
    message := "No mapping schema defined for " ++ src.node_type.value ++ " → " ++
      tgt.node_type.value ++ ". Consider adding one to EXPECTED_MAPPING_FIELDS." }

/-- The WARNING emitted by Level 2 for an absent conditional category. -/
def level2CondWarning (src tgt : ArtifactNode) (edge : DependencyEdge)
    (schema : MappingSchema) : ValidationItem :=
  { severity := "WARNING", category := "field_level", node_id := edge.source_id,
    target_id := edge.target_id, mapping_category := schema.category,
    message := "Conditional mapping \x27" ++ schema.category ++ "\x27 not present in " ++
      src.name ++ " → " ++ tgt.name ++ ". " ++
      "Verify this is intentionally omitted. " ++
      "(" ++ schema.description ++ ")" }

/-- The FAIL emitted by Level 2 for an absent mandatory category. -/
def level2MissingCatFail (src tgt : ArtifactNode) (edge : DependencyEdge)
    (schema : MappingSchema) : ValidationItem :=
  { severity := "FAIL", category := "field_level", node_id := edge.source_id,
    target_id := edge.target_id, mapping_category := schema.category,
    message := "MISSING MAPPING CATEGORY: \x27" ++ schema.category ++
      "\x27 not found in " ++ "mapping_details for " ++ src.name ++ " → " ++
      tgt.name ++ ". " ++ "Required fields: " ++
      pyReprStrList schema.required_fields ++ ". " ++
      "(" ++ schema.description ++ ")",
    details := [("required_fields", .pStrList schema.required_fields)] }

/-- The FAIL emitted by Level 2 for one malformed record of a category. -/
def level2IncompleteFail (src tgt : ArtifactNode) (edge : DependencyEdge)
    (schema : MappingSchema) (idx : ℕ) (entry : List (String × PyVal))
    (missing_fields : List String) : ValidationItem :=
  { severity := "FAIL", category := "field_level", node_id := edge.source_id,
    target_id := edge.target_id, mapping_category := schema.category,
    message := "INCOMPLETE MAPPING: \x27" ++ schema.category ++ "\x27 entry #" ++
      toString idx ++ " in " ++ src.name ++ " → " ++ tgt.name ++
      " is missing fields: " ++ pyReprStrList missing_fields,
    details := [("entry_index", .pNum idx),
                ("missing_fields", .pStrList missing_fields),
                ("present_fields", .pStrList (dkeys entry))] }

/-- The PASS emitted by Level 2 for one complete record of a category. -/
def level2EntryPass (src tgt : ArtifactNode) (edge : DependencyEdge)
    (schema : MappingSchema) (idx : ℕ) : ValidationItem :=
  { severity := "PASS", category := "field_level", node_id := edge.source_id,
    target_id := edge.target_id, mapping_category := schema.category,
    message := "Mapping complete: \x27" ++ schema.category ++ "\x27 entry #" ++
      toString idx ++ " in " ++ src.name ++ " → " ++ tgt.name }

/-- Level-2 processing of one schema category on one edge. -/
def level2SchemaItems (src tgt : ArtifactNode) (edge : DependencyEdge)
    (schema : MappingSchema) : List ValidationItem :=
  let matching := edge.mapping_details.filter
    (fun md => decide (dlookup md "category" = some (.pStr schema.category)))
  if matching.isEmpty then
    if schema.conditional then [level2CondWarning src tgt edge schema]
    else [level2MissingCatFail src tgt edge schema]
  else
    matching.enum.map (fun p =>
      let missing_fields := schema.required_fields.filter (fieldMissingIn p.2)
      if missing_fields.isEmpty then level2EntryPass src tgt edge schema p.1
      else level2IncompleteFail src tgt edge schema p.1 p.2 missing_fields)

/-- Level-2 processing of one edge (`_level2_field_completeness` loop body). -/
def level2EdgeItems (g : GraphManager) (edge : DependencyEdge) :
    List ValidationItem :=
  match dlookup g.nodes edge.source_id, dlookup g.nodes edge.target_id with
  | some src, some tgt =>
    match dlookup EXPECTED_MAPPING_FIELDS (src.node_type, tgt.node_type) with
    | none => [level2InfoItem src tgt edge]
    | some schemas =>
      if schemas.isEmpty then [level2InfoItem src tgt edge]
      else schemas.flatMap (level2SchemaItems src tgt edge)
  | _, _ => []

/-- `MappingValidator._level2_field_completeness`: the items it appends. -/
def level2_field_completeness (g : GraphManager) : List ValidationItem :=
  g.edges.flatMap (fun p => level2EdgeItems g p.2)

/-- Lexicographic code-point order on character lists (the order Python
`sorted` uses on strings), written so that it reduces in the kernel. -/
def charListLt : List Char → List Char → Bool
  | [], [] => false
  | [], _ :: _ => true
  | _ :: _, [] => false
  | a :: as, b :: bs =>
    if a.toNat < b.toNat then true
    else if b.toNat < a.toNat then false
    else charListLt as bs

/-- Lexicographic code-point order on strings. -/
def strLt (a b : String) : Bool := charListLt a.data b.data

/-- Insertion into a sorted duplicate-free list of strings (the canonical
embedding of a Python `set[str]`; `sorted(s)` is the list itself). -/
def sinsert (s : String) : List String → List String
  | [] => [s]
  | x :: xs =>
    if strLt s x then s :: x :: xs
    else if s = x then x :: xs
    else x :: sinsert s xs

/-- The embedding of Python `set(l)` for a list of strings. -/
def pySetOf (l : List String) : List String :=
  l.foldl (fun acc s => sinsert s acc) []

/-- Set intersection on canonical string sets. -/
def sInter (a b : List String) : List String :=
  a.filter (fun s => decide (s ∈ b))

/-- Set difference on canonical string sets. -/
def sDiff (a b : List String) : List String :=
  a.filter (fun s => decide (s ∉ b))

/-- One tuple of the `COVERAGE_CHECKS` table in `_level3_element_coverage`. -/
structure CoverageCheck where
  element_key : String
  mapping_category : String
  element_field_in_mapping : String
  target_types : List NodeType
deriving DecidableEq

/-- The `COVERAGE_CHECKS` table from `_level3_element_coverage`. -/
def COVERAGE_CHECKS : List CoverageCheck := [
  ⟨"ports", "port_naming", "ipxact_port", [.RTL_WRAPPER]⟩,
  ⟨"clocks", "clock_domain", "ipxact_clock_port", [.SDC_CONSTRAINT]⟩,
  ⟨"resets", "reset_domain", "ipxact_reset_port", [.RESET_SCHEME]⟩,
  ⟨"bus_interfaces", "bus_interface", "bus_interface_name", [.BUS_VIP_CONFIG]⟩,
  ⟨"memory_maps", "memory_map_mapping", "memory_map_name",
   [.MEMORY_MAP, .REGISTER_MAP]⟩,
  ⟨"power_domains", "power_domain", "upf_power_domain", [.UPF_POWER]⟩]

/-- The covered-set gathered by Level 3 across the relevant edges: every
identifying-field value of a record tagged with the mapping category.  (The
values are strings in every embedded flow; a truthy non-string value would
make the later Python `sorted` call heterogeneous.) -/
def mappedElementsOf (relevant : List DependencyEdge) (cat fieldName : String) :
    List String :=
  relevant.foldl
    (fun acc e => e.mapping_details.foldl
      (fun acc md =>
        if dlookup md "category" = some (.pStr cat) then
          match dlookup md fieldName with
          | some (PyVal.pStr v) => if v ≠ "" then sinsert v acc else acc
          | _ => acc
        else acc)
      acc)
    []

/-- The PASS item emitted by Level 3 for a fully covered element category. -/
def level3PassItem (nid : String) (node : ArtifactNode) (check : CoverageCheck)
    (definedS covered : List String) : ValidationItem :=
  { severity := "PASS", category := "element_coverage", node_id := nid,
    mapping_category := check.mapping_category,
    message := "Full coverage: all " ++ toString definedS.length ++ " " ++
      check.element_key ++ " in \x27" ++ node.name ++ "\x27 have \x27" ++
      check.mapping_category ++ "\x27 mappings",
    details := [("defined", .pStrList definedS), ("covered", .pStrList covered)] }

/-- The FAIL item emitted by Level 3 for an incompletely covered element
category: it names the uncovered elements and the coverage fraction. -/
def level3FailItem (nid : String) (node : ArtifactNode) (check : CoverageCheck)
    (definedS covered missing : List String) : ValidationItem :=
  { severity := "FAIL", category := "element_coverage", node_id := nid,
    mapping_category := check.mapping_category,
    message := "INCOMPLETE COVERAGE: " ++ toString missing.length ++ "/" ++
      toString definedS.length ++ " " ++ check.element_key ++ " in \x27" ++
      node.name ++ "\x27 have NO \x27" ++ check.mapping_category ++
      "\x27 mapping. " ++ "Missing: " ++ pyReprStrList missing,
    details := [("defined", .pStrList definedS),
                ("covered", .pStrList covered),
                ("missing", .pStrList missing),
                ("coverage_pct",
                 .pNum (pyRound1 (100 * (covered.length : ℚ) /
                   (definedS.length : ℚ))))] }

/-- The WARNING emitted by Level 3 for mapped elements never declared. -/
def level3ExtraWarning (nid : String) (_node : ArtifactNode)
    (check : CoverageCheck) (extra : List String) : ValidationItem :=
  { severity := "WARNING", category := "element_coverage", node_id := nid,
    mapping_category := check.mapping_category,
    message := "Extra mappings found for " ++ check.element_key ++ " not in " ++
      "defined_elements: " ++ pyReprStrList extra ++ ". " ++
      "Check if defined_elements needs updating.",
    details := [("extra", .pStrList extra)] }

/-- The edges relevant to one Level-3 check of one node: outgoing edges whose
target is stored and of one of the check's target types. -/
def relevantEdgesOf (g : GraphManager) (nid : String) (check : CoverageCheck) :
    List DependencyEdge :=
  (g.get_edges_from nid).filter (fun e =>
    match dlookup g.nodes e.target_id with
    | some tn => decide (tn.node_type ∈ check.target_types)
    | none => false)

/-- Level-3 processing of one check tuple on one node. -/
def level3CheckItems (g : GraphManager) (nid : String) (node : ArtifactNode)
    (check : CoverageCheck) : List ValidationItem :=
  let elements := (dlookup node.defined_elements check.element_key).getD []
  if elements.isEmpty then []
  else
    let relevant := relevantEdgesOf g nid check
    if relevant.isEmpty then []
    else
      let mapped := mappedElementsOf relevant check.mapping_category
        check.element_field_in_mapping
      let definedS := pySetOf elements
      let covered := sInter definedS mapped
      let missing := sDiff definedS mapped
      let extra := sDiff mapped definedS
      (if missing.isEmpty then [level3PassItem nid node check definedS covered]
       else [level3FailItem nid node check definedS covered missing]) ++
      (if extra.isEmpty then [] else [level3ExtraWarning nid node check extra])

/-- Level-3 processing of one node (`_level3_element_coverage` loop body). -/
def level3NodeItems (g : GraphManager) (nid : String) (node : ArtifactNode) :
    List ValidationItem :=
  if node.defined_elements.isEmpty then []
  else COVERAGE_CHECKS.flatMap (level3CheckItems g nid node)

/-- `MappingValidator._level3_element_coverage`: the items it appends. -/
def level3_element_coverage (g : GraphManager) : List ValidationItem :=
  g.nodes.flatMap (fun p => level3NodeItems g p.1 p.2)

/-- `MappingValidator.validate`: runs the three levels in order into one
fresh report stamped with the current wall-clock time `now`. -/
def MappingValidator.validate (g : GraphManager) (now : ℚ) : ValidationReport :=
  { timestamp := now,
    items := level1_structural g ++ level2_field_completeness g ++
      level3_element_coverage g }

/-- State of one path on disk, as observed by `ArtifactNode.compute_hash`:
absent (not a regular file), readable with a given SHA-256 digest, or
present but failing to open/read with an `OSError`. -/
inductive FileStat where
  | absent : FileStat
  | readable (digest : String) : FileStat
  | unreadable : FileStat
deriving DecidableEq

/-- A snapshot of the file system. -/
def FileSystem : Type := String → FileStat

/-- `ArtifactNode.compute_hash`: `None` for a falsy `file_path` or an absent
file; the digest for a readable file; for an `OSError` the code re-raises
`RuntimeError(f"Cannot hash file {path}: {e}")` (the embedded message keeps
the prefix and path; the OS-supplied suffix is not modelled). -/
def ArtifactNode.compute_hash (node : ArtifactNode) (fs : FileSystem) :
    Except PyErr (Option String) :=
  match node.file_path with
  | none => .ok none
  | some p =>
    if p = "" then .ok none
    else match fs p with
      | .absent => .ok none
      | .readable digest => .ok (some digest)
      | .unreadable => .error (.runtimeError ("Cannot hash file " ++ p))

/-- `ChangedFile` from `change_detector.py`. -/
structure ChangedFile where
  node_id : String
  name : String
  file_path : String
  old_hash : Option String
  new_hash : Option String
  status : String
deriving DecidableEq

/-- `ImpactChain` from `change_detector.py`. -/
structure ImpactChain where
  source_node_id : String
  affected_node_id : String
  path : List String
  edge_types : List String
  depth : ℕ
deriving DecidableEq

/-- `ChangeReport` from `change_detector.py` (the `affected_node_ids` set is
embedded in canonical sorted form). -/
structure ChangeReport where
  timestamp : ℚ
  changed_files : List ChangedFile
  impact_chains : List ImpactChain
  affected_node_ids : List String
deriving DecidableEq

/-- The loop body of `ChangeDetector.detect_changes` over the node list: an
`OSError`-induced `RuntimeError` from `compute_hash` propagates and aborts
the remaining iterations. -/
def detectLoop (fs : FileSystem) (baseline : List (String × String)) :
    List (String × ArtifactNode) → Except PyErr (List ChangedFile)
  | [] => .ok []
  | (nid, node) :: rest =>
    match node.file_path with
    | none => detectLoop fs baseline rest
    | some p =>
      if p = "" then detectLoop fs baseline rest
      else do
        let new_hash ← node.compute_hash fs
        let tail ← detectLoop fs baseline rest
        let old_hash := dlookup baseline nid
        match old_hash, new_hash with
        | none, some nh => .ok (⟨nid, node.name, p, none, some nh, "added"⟩ :: tail)
        | some oh, none => .ok (⟨nid, node.name, p, some oh, none, "missing"⟩ :: tail)
        | oh, nh => if oh ≠ nh then .ok (⟨nid, node.name, p, oh, nh, "modified"⟩ :: tail)
                    else .ok tail

/-- `ChangeDetector.detect_changes`: compare current hashes to a baseline. -/
def detect_changes (fs : FileSystem) (g : GraphManager)
    (baseline : List (String × String)) : Except PyErr (List ChangedFile) :=
  detectLoop fs baseline g.nodes

/-- The `edge_type` attribute of the `networkx` edge between two node ids
(`g.edges[u, v].get("edge_type", "")`). -/
def nxEdgeTypeAttr (g : GraphManager) (u v : String) : String :=
  match (g.nx_edges.filter (fun q => q.1 == u && q.2.1 == v)).head? with
  | some q => q.2.2.edge_type
  | none => ""

/-- One queue entry of the BFS in `propagate_impact`:
(current node, path so far, edge types so far). -/
abbrev BfsEntry : Type := String × List String × List String

/-- The downstream BFS loop of `propagate_impact`, with explicit fuel (the
Python loop terminates because every enqueued path is strictly longer than
its parent's and paths beyond `max_depth` are dropped; the callers below
always pass enough fuel). -/
def bfsLoop (g : GraphManager) (start_id : String) (max_depth : ℕ)
    (next : String → List String) :
    ℕ → List String → List BfsEntry → List ImpactChain
  | 0, _, _ => []
  | _ + 1, _, [] => []
  | fuel + 1, visited, (current, path, etypes) :: queue =>
    if current ∈ visited ∨ path.length > max_depth then
      bfsLoop g start_id max_depth next fuel visited queue
    else
      let visited' := visited ++ [current]
      ⟨start_id, current, path, etypes, path.length - 1⟩ ::
      bfsLoop g start_id max_depth next fuel visited'
        (queue ++ (next current).filterMap (fun succ =>
          if succ ∈ visited' then none
          else some (succ, path ++ [succ], etypes ++ [nxEdgeTypeAttr g current succ])))

/-- Fuel sufficient for the BFS queue to drain on the graph at hand. -/
def bfsFuel (g : GraphManager) (max_depth : ℕ) : ℕ :=
  (g.nx_nodes.length + 1) * (g.nx_edges.length + 1) * (max_depth + 2) + 1

/-- `ChangeDetector.propagate_impact` for one seed, downstream direction. -/
def propagateFrom (g : GraphManager) (start_id : String) (max_depth : ℕ) :
    List ImpactChain :=
  bfsLoop g start_id max_depth (g.successors) (bfsFuel g max_depth)
    [start_id]
    ((g.successors start_id).map (fun succ =>
      (succ, [start_id, succ], [nxEdgeTypeAttr g start_id succ])))

/-- `ChangeDetector.propagate_impact` for one seed, upstream direction
(note the Python path runs affected-to-source: `[start_id, pred, ...]`). -/
def propagateUpFrom (g : GraphManager) (start_id : String) (max_depth : ℕ) :
    List ImpactChain :=
  bfsLoop g start_id max_depth (g.predecessors) (bfsFuel g max_depth)
    [start_id]
    ((g.predecessors start_id).map (fun pred =>
      (pred, [start_id, pred], [nxEdgeTypeAttr g pred start_id])))

/-- `ChangeDetector.propagate_impact`: BFS from each changed node (skipping
ids absent from the graph), optionally also upstream. -/
def propagate_impact (g : GraphManager) (changed_node_ids : List String)
    (max_depth : ℕ) (include_upstream : Bool) : List ImpactChain :=
  changed_node_ids.flatMap (fun start_id =>
    if start_id ∈ g.nx_nodes then
      propagateFrom g start_id max_depth ++
      (if include_upstream then propagateUpFrom g start_id max_depth else [])
    else [])

/-- `ChangeDetector.full_scan`: detection then propagation in one report;
a hashing error propagates to the caller and no report is produced. -/
def full_scan (fs : FileSystem) (g : GraphManager)
    (baseline : List (String × String)) (now : ℚ)
    (include_upstream : Bool := false) : Except PyErr ChangeReport := do
  let changes ← detect_changes fs g baseline
  let chains := propagate_impact g (changes.map (fun c => c.node_id)) 50
    include_upstream
  .ok { timestamp := now, changed_files := changes, impact_chains := chains,
        affected_node_ids := pySetOf (chains.map (fun ic => ic.affected_node_id)) }

/-- All members of `NodeType`, for enum-constructor lookup by value. -/
def allNodeTypes : List NodeType := [
  .IPXACT_COMPONENT, .IPXACT_DESIGN, .IPXACT_DESIGN_CONFIG,
  .IPXACT_ABSTRACTION_DEF, .IPXACT_CATALOG, .IPXACT_GENERATOR_CHAIN,
  .SDC_CONSTRAINT, .UPF_POWER, .CDC_CONSTRAINT, .RESET_SCHEME,
  .RTL_SOURCE, .FPGA_SOURCE, .RTL_WRAPPER, .RTL_FILELIST,
  .REGISTER_MAP, .UVM_RAL_MODEL, .C_HEADER, .REGISTER_DOC,
  .MEMORY_MAP, .LINKER_SCRIPT, .ADDRESS_DECODE,
  .BUS_VIP_CONFIG, .PROTOCOL_CHECKER, .TESTBENCH_TOP,
  .PIN_MAPPING, .FLOORPLAN_CONSTRAINT, .IO_PAD_CONFIG, .DEF_LEF_CONSTRAINT,
  .EDA_SCRIPT, .VENDOR_EXTENSION, .CONFIG_PARAM, .DOCUMENTATION]

/-- `NodeType(s)`: the member with the given value, or a `ValueError`. -/
def NodeType.ofValue (s : String) : Option NodeType :=
  allNodeTypes.find? (fun t => t.value == s)

/-- All members of `EdgeType`. -/
def allEdgeTypes : List EdgeType := [
  .GENERATES, .CONSTRAINS, .REFERENCES, .MAPS_TO, .DERIVES_FROM,
  .CONFIGURES, .INSTANTIATES, .ABSTRACTS, .VALIDATES]

/-- `EdgeType(s)`. -/
def EdgeType.ofValue (s : String) : Option EdgeType :=
  allEdgeTypes.find? (fun t => t.value == s)

/-- All members of `Domain`. -/
def allDomains : List Domain := [
  .FRONTEND, .VERIFICATION, .DFT, .PHYSICAL_DESIGN, .SIGNOFF,
  .FPGA_TRANSLATION, .FIRMWARE, .GLOBAL]

/-- `Domain(s)`. -/
def Domain.ofValue (s : String) : Option Domain :=
  allDomains.find? (fun t => t.value == s)

/-- One node record of the JSON snapshot written by `GraphManager.save`. -/
structure SavedNode where
  node_id : String
  name : String
  node_type : String
  domain : String
  file_path : Option String
  description : String
  eda_tool : String
  version : String
  tags : List String
  metadata : List (String × PyVal)
deriving DecidableEq

/-- One edge record of the JSON snapshot written by `GraphManager.save`. -/
structure SavedEdge where
  source_id : String
  target_id : String
  edge_type : String
  label : String
  domain : String
  metadata : List (String × PyVal)
  mapping_details : List (List (String × PyVal))
deriving DecidableEq

/-- The flat snapshot structure `{"nodes": [...], "edges": [...]}`. -/
structure SaveData where
  nodes : List SavedNode
  edges : List SavedEdge
deriving DecidableEq

/-- The persisted record of one node (`GraphManager.save`; note
`defined_elements` and the hash caches are not persisted). -/
def savedNodeOf (n : ArtifactNode) : SavedNode :=
  ⟨n.node_id, n.name, n.node_type.value, n.domain.value, n.file_path,
   n.description, n.eda_tool, n.version, n.tags, n.metadata⟩

/-- The persisted record of one edge (`GraphManager.save`). -/
def savedEdgeOf (e : DependencyEdge) : SavedEdge :=
  ⟨e.source_id, e.target_id, e.edge_type.value, e.label, e.domain.value,
   e.metadata, e.mapping_details⟩

/-- `GraphManager.save`: the snapshot, in dict iteration order. -/
def GraphManager.save (g : GraphManager) : SaveData :=
  ⟨g.nodes.map (fun p => savedNodeOf p.2), g.edges.map (fun p => savedEdgeOf p.2)⟩

/-- `GraphManager.load` node reconstruction (`ArtifactNode(...)` with enum
parsing; absent optional keys take their dataclass defaults, in particular
`defined_elements` restarts empty). -/
def parseNode (sn : SavedNode) : Except PyErr ArtifactNode :=
  match NodeType.ofValue sn.node_type, Domain.ofValue sn.domain with
  | some nt, some d =>
    .ok { node_id := sn.node_id, name := sn.name, node_type := nt, domain := d,
          file_path := sn.file_path, description := sn.description,
          eda_tool := sn.eda_tool, version := sn.version, tags := sn.tags,
          metadata := sn.metadata }
  | _, _ => .error (.valueError ("not a valid NodeType/Domain: " ++
      sn.node_type ++ "/" ++ sn.domain))

/-- `GraphManager.load` edge reconstruction. -/
def parseEdge (se : SavedEdge) : Except PyErr DependencyEdge :=
  match EdgeType.ofValue se.edge_type, Domain.ofValue se.domain with
  | some et, some d =>
    .ok { source_id := se.source_id, target_id := se.target_id, edge_type := et,
          label := se.label, domain := d, metadata := se.metadata,
          mapping_details := se.mapping_details }
  | _, _ => .error (.valueError ("not a valid EdgeType/Domain: " ++
      se.edge_type ++ "/" ++ se.domain))

/-- Turns the mutation-level result of an operation into the exception
semantics seen by `load` (which never catches). -/
def toExcept (r : GraphManager × Option PyErr) : Except PyErr GraphManager :=
  match r.2 with
  | none => .ok r.1
  | some e => .error e

/-- The node-loading loop of `GraphManager.load`. -/
def loadNodes : GraphManager → List SavedNode → Except PyErr GraphManager
  | gm, [] => .ok gm
  | gm, sn :: rest => do
    let n ← parseNode sn
    let gm' ← toExcept (gm.add_node n)
    loadNodes gm' rest

/-- The edge-loading loop of `GraphManager.load`. -/
def loadEdges : GraphManager → List SavedEdge → Except PyErr GraphManager
  | gm, [] => .ok gm
  | gm, se :: rest => do
    let e ← parseEdge se
    let gm' ← toExcept (gm.add_edge e)
    loadEdges gm' rest

/-- `GraphManager.load` on an in-memory snapshot (the file layer of
`json.loads(path.read_text())` is outside the embedding). -/
def GraphManager.load (d : SaveData) : Except PyErr GraphManager := do
  let gm ← loadNodes .empty d.nodes
  loadEdges gm d.edges

/-- The persisted projection of a stored node: what survives a
save/load round trip (`defined_elements` is not persisted). -/
def stripNode (n : ArtifactNode) : ArtifactNode :=
  { n with defined_elements := [] }

/-- The graph CRUD operations, for statements quantifying over operations. -/
inductive GraphOp where
  | addNodeOp (node : ArtifactNode) : GraphOp
  | updateNodeOp (node : ArtifactNode) : GraphOp
  | removeNodeOp (node_id : String) : GraphOp
  | addEdgeOp (edge : DependencyEdge) : GraphOp
  | removeEdgeOp (source_id target_id : String) (edge_type : EdgeType) : GraphOp

/-- Dispatch of one operation. -/
def execOp (g : GraphManager) : GraphOp → GraphManager × Option PyErr
  | .addNodeOp n => g.add_node n
  | .updateNodeOp n => g.update_node n
  | .removeNodeOp nid => g.remove_node nid
  | .addEdgeOp e => g.add_edge e
  | .removeEdgeOp s t et => g.remove_edge s t et

/-- The state after a sequence of operations (exceptions are caught by the
caller and leave the returned state in force, as in Python). -/
def execOps (g : GraphManager) : List GraphOp → GraphManager
  | [] => g
  | op :: rest => execOps (execOp g op).1 rest

/-- The ordered (source, target) pairs of the `_edges` dict values. -/
def edgePairs (g : GraphManager) : List (String × String) :=
  g.edges.map (fun p => (p.2.source_id, p.2.target_id))

/-- The ordered (source, target) pairs of the `networkx` edges. -/
def nxPairs (g : GraphManager) : List (String × String) :=
  g.nx_edges.map (fun q => (q.1, q.2.1))

/-- Structural well-formedness of a manager state: `networkx` node set
mirrors `_nodes`; `_edges` keys are the edge ids of their values and are
unique; no two stored edges connect the same ordered node pair; `networkx`
has at most one edge per ordered pair; and the `networkx` edge set mirrors
the stored edge set pairwise. -/
def GraphInv (g : GraphManager) : Prop :=
  g.nx_nodes = dkeys g.nodes ∧
  (∀ p ∈ g.edges, p.1 = p.2.edge_id) ∧
  (dkeys g.edges).Nodup ∧
  (edgePairs g).Nodup ∧
  (nxPairs g).Nodup ∧
  (∀ pr ∈ nxPairs g, pr ∈ edgePairs g) ∧
  (∀ pr ∈ edgePairs g, pr ∈ nxPairs g)

instance (g : GraphManager) : Decidable (GraphInv g) := by
  unfold GraphInv; infer_instance

/-- Side condition under which one operation keeps `_edges` and the
adjacency structure consistent: an added edge must not parallel an existing
edge between the same ordered node pair (with a different kind the second
edge is accepted into `_edges` but collapses into the single `networkx`
edge), and a removed edge's id must denote its own endpoints (no delimiter
collisions inside node ids). -/
def SafeStep (g : GraphManager) : GraphOp → Prop
  | .addEdgeOp e => ∀ p ∈ g.edges,
      ¬(p.2.source_id = e.source_id ∧ p.2.target_id = e.target_id)
  | .removeEdgeOp s t et => ∀ p ∈ g.edges,
      p.1 = s ++ "--" ++ et.value ++ "-->" ++ t →
      p.2.source_id = s ∧ p.2.target_id = t
  | _ => True

instance : ∀ (g : GraphManager) (op : GraphOp), Decidable (SafeStep g op)
  | _, .addNodeOp _ => .isTrue trivial
  | _, .updateNodeOp _ => .isTrue trivial
  | _, .removeNodeOp _ => .isTrue trivial
  | g, .addEdgeOp _ => List.decidableBAll _ g.edges
  | g, .removeEdgeOp _ _ _ => List.decidableBAll _ g.edges

/-- Node `A` of the two-node example graphs. -/
def nodeA : ArtifactNode :=
  { node_id := "A", name := "A", node_type := .IPXACT_COMPONENT,
    domain := .FRONTEND }

/-- Node `B` of the two-node example graphs. -/
def nodeB : ArtifactNode :=
  { node_id := "B", name := "B", node_type := .SDC_CONSTRAINT,
    domain := .FRONTEND }

/-- A `generates` edge from `A` to `B`. -/
def edgeAB1 : DependencyEdge :=
  { source_id := "A", target_id := "B", edge_type := .GENERATES }

/-- A parallel `constrains` edge from `A` to `B`. -/
def edgeAB2 : DependencyEdge :=
  { source_id := "A", target_id := "B", edge_type := .CONSTRAINS }

/-- Two nodes connected by one edge. -/
def gAB : GraphManager :=
  execOps .empty [.addNodeOp nodeA, .addNodeOp nodeB, .addEdgeOp edgeAB1]

/-- Add two parallel edges of different kinds, then remove one of them. -/
def parallelOps : List GraphOp :=
  [.addNodeOp nodeA, .addNodeOp nodeB, .addEdgeOp edgeAB1, .addEdgeOp edgeAB2,
   .removeEdgeOp "A" "B" .GENERATES]

/-- The state reached by `parallelOps` from an empty manager. -/
def parallelG : GraphManager := execOps .empty parallelOps

/-- A complete `clock_domain` mapping record (Scenario A). -/
def cdRecord : List (String × PyVal) :=
  [("category", .pStr "clock_domain"), ("ipxact_clock_port", .pStr "i_clk"),
   ("sdc_clock_name", .pStr "CLK_MAIN"), ("period_ns", .pNum 10),
   ("uncertainty_setup", .pNum (3/20)), ("uncertainty_hold", .pNum (1/20))]

/-- A complete `io_timing` mapping record (Scenario A). -/
def ioRecord : List (String × PyVal) :=
  [("category", .pStr "io_timing"), ("ipxact_port", .pStr "i_data"),
   ("sdc_command", .pStr "set_input_delay"), ("clock_domain", .pStr "CLK_MAIN"),
   ("max_delay", .pNum 2), ("min_delay", .pNum 1)]

/-- A complete `false_path` mapping record (Scenario A). -/
def fpRecord : List (String × PyVal) :=
  [("category", .pStr "false_path"), ("ipxact_port_or_domain", .pStr "i_rst_n"),
   ("sdc_false_path_spec", .pStr "set_false_path -from i_rst_n")]

/-- Scenario A component: an IP-XACT component declaring two clocks. -/
def compNode : ArtifactNode :=
  { node_id := "comp", name := "aes_core", node_type := .IPXACT_COMPONENT,
    domain := .FRONTEND,
    defined_elements := [("clocks", ["i_clk", "i_clk_dft"])] }

/-- Scenario A SDC target node. -/
def sdcNode : ArtifactNode :=
  { node_id := "sdc", name := "aes_sdc", node_type := .SDC_CONSTRAINT,
    domain := .FRONTEND }

/-- Scenario A edge: complete `clock_domain`, `io_timing` and `false_path`
records, no `clock_group` record. -/
def sdcEdge : DependencyEdge :=
  { source_id := "comp", target_id := "sdc", edge_type := .GENERATES,
    mapping_details := [cdRecord, ioRecord, fpRecord] }

/-- The Scenario A graph. -/
def c3graph : GraphManager :=
  execOps .empty [.addNodeOp compNode, .addNodeOp sdcNode, .addEdgeOp sdcEdge]

/-- Scenario B component: an IP-XACT component declaring ten ports. -/
def portsNode : ArtifactNode :=
  { node_id := "ip", name := "aes_ip", node_type := .IPXACT_COMPONENT,
    domain := .FRONTEND,
    defined_elements := [("ports",
      ["p0", "p1", "p2", "p3", "p4", "p5", "p6", "p7", "p8", "p9"])] }

/-- Scenario B RTL wrapper target node. -/
def wrapNode : ArtifactNode :=
  { node_id := "wrap", name := "aes_wrapper", node_type := .RTL_WRAPPER,
    domain := .FRONTEND }

/-- Scenario B edge: exactly one `port_naming` record, covering one port. -/
def portEdge : DependencyEdge :=
  { source_id := "ip", target_id := "wrap", edge_type := .MAPS_TO,
    mapping_details := [[("category", .pStr "port_naming"),
      ("ipxact_port", .pStr "p0"), ("rtl_port", .pStr "u_aes_p0"),
      ("direction", .pStr "in"), ("width", .pNum 1)]] }

/-- The Scenario B graph. -/
def c8graph : GraphManager :=
  execOps .empty [.addNodeOp portsNode, .addNodeOp wrapNode, .addEdgeOp portEdge]

/-- A node whose file is registered under `/ip/aes.xml`. -/
def hashedNode : ArtifactNode :=
  { node_id := "n1", name := "aes_xml", node_type := .IPXACT_COMPONENT,
    domain := .FRONTEND, file_path := some "/ip/aes.xml" }

/-- A one-node graph for the hashing scenarios. -/
def c1graph : GraphManager := execOps .empty [.addNodeOp hashedNode]

/-- A baseline that knows a hash for node `n1`. -/
def c1baseline : List (String × String) := [("n1", "oldhash")]

/-- A file system on which `/ip/aes.xml` exists but reading it fails with an
`OSError` (e.g. a permission or disk error). -/
def fsUnreadable : FileSystem :=
  fun p => if p = "/ip/aes.xml" then .unreadable else .absent

/-- A file system on which every path is absent. -/
def fsAbsent : FileSystem := fun _ => .absent

/-- An edge whose target id is absent from `gAB`. -/
def danglingEdge : DependencyEdge :=
  { source_id := "A", target_id := "C", edge_type := .REFERENCES }

/-- The element list a Level-3 check reads from a node
(`node.defined_elements.get(elem_key, [])`). -/
def level3Elements (node : ArtifactNode) (check : CoverageCheck) : List String :=
  (dlookup node.defined_elements check.element_key).getD []

/-- The covered-set a Level-3 check gathers for a node. -/
def level3Mapped (g : GraphManager) (nid : String) (check : CoverageCheck) :
    List String :=
  mappedElementsOf (relevantEdgesOf g nid check) check.mapping_category
    check.element_field_in_mapping

/-- The declared elements a Level-3 check finds covered. -/
def level3Covered (g : GraphManager) (nid : String) (node : ArtifactNode)
    (check : CoverageCheck) : List String :=
  sInter (pySetOf (level3Elements node check)) (level3Mapped g nid check)

/-- The declared elements a Level-3 check finds uncovered. -/
def level3Missing (g : GraphManager) (nid : String) (node : ArtifactNode)
    (check : CoverageCheck) : List String :=
  sDiff (pySetOf (level3Elements node check)) (level3Mapped g nid check)

-- ===================================================================== --
--  Theorems                                                             --
-- ===================================================================== --

theorem mem_dkeys {α β : Type} (l : List (α × β)) (k : α) :
    k ∈ dkeys l ↔ ∃ p ∈ l, p.1 = k := by
  simp [dkeys, List.mem_map]

theorem flatMap_if_singleton {α β : Type} (l : List α) (p : α → Bool)
    (f : α → β) :
    (l.flatMap (fun x => if p x then [] else [f x])) =
      (l.filter (fun x => !p x)).map f := by
  induction l with
  | nil => rfl
  | cons x xs ih =>
    by_cases hx : p x <;> simp [List.flatMap_cons, hx, ih, List.filter_cons]

/-- C2 (counterexample): two validator runs on the same unmodified graph at
distinct wall-clock instants serialize different reports — the `timestamp`
field of the summary differs, so the reports are not byte-identical and not
equal in every field. -/
theorem validate_twice_reports_differ :
    (MappingValidator.validate GraphManager.empty 0).summary ≠
      (MappingValidator.validate GraphManager.empty 1).summary := by
  decide

/-- C2 (amended): running the validator twice on an unmodified graph yields
reports that agree on every field except the embedded wall-clock timestamp:
the item lists are identical (same items, same order) and the serialized
summaries agree on every field other than `timestamp`. -/
theorem validate_deterministic_except_timestamp (g : GraphManager) (t1 t2 : ℚ) :
    (MappingValidator.validate g t1).items = (MappingValidator.validate g t2).items ∧
    summaryNoTimestamp (MappingValidator.validate g t1) =
      summaryNoTimestamp (MappingValidator.validate g t2) :=
  ⟨rfl, rfl⟩

/-- C3 (counterexample): in Scenario A (two clocks, one edge to an SDC
target with complete `clock_domain`, `io_timing` and `false_path` records
and no `clock_group` record) the Level-2 pass does not emit exactly one
WARNING. -/
theorem scenarioA_level2_warning_count_ne_one :
    ((level2_field_completeness c3graph).filter
      (fun i => i.severity == "WARNING")).length ≠ 1 := by
  decide

/-- C3 (amended): in Scenario A the Level-2 pass emits exactly two WARNINGs —
one for the `clock_group` category and one for the (also conditional and
absent) `multicycle_path` category — together with PASS items for the other
three categories and no Level-2 FAIL for the edge. -/
theorem scenarioA_level2_two_warnings_three_passes :
    ((level2_field_completeness c3graph).filter
        (fun i => i.severity == "WARNING")).map (fun i => i.mapping_category) =
      ["clock_group", "multicycle_path"] ∧
    ((level2_field_completeness c3graph).filter
        (fun i => i.severity == "PASS")).map (fun i => i.mapping_category) =
      ["clock_domain", "io_timing", "false_path"] ∧
    (level2_field_completeness c3graph).filter (fun i => i.severity == "FAIL") =
      [] := by
  exact ⟨by decide, by decide, by decide⟩

/-- C10: a validation report is valid iff it contains zero FAIL items
(warnings and info never matter), and a report with no PASS and no FAIL
items has an overall coverage percentage of exactly 100.0 and is valid. -/
theorem is_valid_iff_no_failures (r : ValidationReport) :
    (r.is_valid = true ↔ r.failures = []) ∧
    (r.passes = [] → r.failures = [] →
      r.coverage_pct = 100 ∧ r.is_valid = true) := by
  refine ⟨?_, fun hp hf => ⟨?_, ?_⟩⟩
  · simp [ValidationReport.is_valid, List.length_eq_zero]
  · simp [ValidationReport.coverage_pct, hp, hf]
  · simp [ValidationReport.is_valid, hf]

/-- C10 witness: the report of an empty graph has no PASS and no FAIL items,
coverage 100.0, and is valid. -/
theorem is_valid_iff_no_failures_witness :
    ((MappingValidator.validate GraphManager.empty 0).passes = [] ∧
     (MappingValidator.validate GraphManager.empty 0).failures = []) ∧
    (MappingValidator.validate GraphManager.empty 0).coverage_pct = 100 ∧
    (MappingValidator.validate GraphManager.empty 0).is_valid = true :=
  ⟨⟨by decide, by decide⟩,
   (is_valid_iff_no_failures (MappingValidator.validate GraphManager.empty 0)).2
     (by decide) (by decide)⟩

/-- C5: adding an edge whose source or target id is absent raises `KeyError`
(a structural error) and leaves the graph exactly as it was: the checks
precede every mutation, so no node, edge, or adjacency entry changes. -/
theorem add_edge_dangling_fails_atomically (g : GraphManager)
    (e : DependencyEdge)
    (h : e.source_id ∉ dkeys g.nodes ∨ e.target_id ∉ dkeys g.nodes) :
    (g.add_edge e).1 = g ∧
    ∃ msg, (g.add_edge e).2 = some (.keyError msg) := by
  unfold GraphManager.add_edge
  by_cases h1 : e.source_id ∉ dkeys g.nodes
  · rw [if_pos h1]; exact ⟨rfl, _, rfl⟩
  · have h2 : e.target_id ∉ dkeys g.nodes := h.resolve_left h1
    rw [if_neg h1, if_pos h2]; exact ⟨rfl, _, rfl⟩

/-- C5 witness: adding an edge from `A` to the absent node `C` on the
two-node graph fails with `KeyError` and leaves the graph unchanged. -/
theorem add_edge_dangling_fails_atomically_witness :
    danglingEdge.target_id ∉ dkeys gAB.nodes ∧
    (gAB.add_edge danglingEdge).1 = gAB ∧
    ∃ msg, (gAB.add_edge danglingEdge).2 = some (.keyError msg) :=
  ⟨by decide,
   add_edge_dangling_fails_atomically gAB danglingEdge (Or.inr (by decide))⟩

/-- C6: after removing a present node, no edge whose source or target equals
the removed id remains in the edge collection, and the adjacency structure
never mentions the id again: it appears in no node's successor or
predecessor list, and its own lists are empty.  (The `networkx` node set
mirrors `_nodes`, as in every state the manager itself constructs.) -/
theorem remove_node_cascades (g : GraphManager) (nid : String)
    (h1 : nid ∈ dkeys g.nodes) (h2 : g.nx_nodes = dkeys g.nodes) :
    (∀ p ∈ (g.remove_node nid).1.edges,
        p.2.source_id ≠ nid ∧ p.2.target_id ≠ nid) ∧
    (∀ s, nid ∉ (g.remove_node nid).1.successors s) ∧
    (∀ t, nid ∉ (g.remove_node nid).1.predecessors t) ∧
    (g.remove_node nid).1.successors nid = [] ∧
    (g.remove_node nid).1.predecessors nid = [] := by
  have hx : nid ∈ g.nx_nodes := h2 ▸ h1
  unfold GraphManager.remove_node
  rw [if_pos h1, if_pos hx]
  refine ⟨?_, ?_, ?_, ?_, ?_⟩
  · intro p hp
    simp only [List.mem_filter, Bool.not_eq_true', Bool.or_eq_false_iff,
      beq_eq_false_iff_ne] at hp
    exact hp.2
  · intro s
    simp [GraphManager.successors, List.mem_map, List.mem_filter]
  · intro t
    simp [GraphManager.predecessors, List.mem_map, List.mem_filter]
  · apply List.eq_nil_iff_forall_not_mem.mpr
    intro x
    simp [GraphManager.successors, List.mem_map, List.mem_filter]
    intro a b _ ha hna
    exact absurd ha hna
  · apply List.eq_nil_iff_forall_not_mem.mpr
    intro x
    simp [GraphManager.predecessors, List.mem_map, List.mem_filter]
    intro a b _ ha _
    exact ha

/-- C6 witness: removing node `B` from the two-node graph removes the `A`
to `B` edge and every adjacency mention of `B`. -/
theorem remove_node_cascades_witness :
    ("B" ∈ dkeys gAB.nodes ∧ gAB.nx_nodes = dkeys gAB.nodes) ∧
    (∀ p ∈ (gAB.remove_node "B").1.edges,
        p.2.source_id ≠ "B" ∧ p.2.target_id ≠ "B") ∧
    (∀ s, "B" ∉ (gAB.remove_node "B").1.successors s) ∧
    (∀ t, "B" ∉ (gAB.remove_node "B").1.predecessors t) ∧
    (gAB.remove_node "B").1.successors "B" = [] ∧
    (gAB.remove_node "B").1.predecessors "B" = [] :=
  ⟨⟨by decide, by decide⟩, remove_node_cascades gAB "B" (by decide) (by decide)⟩

theorem detectLoop_error (fs : FileSystem) (baseline : List (String × String)) :
    ∀ ns : List (String × ArtifactNode),
    (∃ p ∈ ns, ∃ q, p.2.file_path = some q ∧ q ≠ "" ∧ fs q = .unreadable) →
    ∃ err, detectLoop fs baseline ns = .error err := by
  intro ns
  induction ns with
  | nil => rintro ⟨p, hp, -⟩; cases hp
  | cons hd rest ih =>
    rintro ⟨p, hp, q, hq, hne, hun⟩
    obtain ⟨nid, node⟩ := hd
    rcases List.mem_cons.mp hp with rfl | hmem
    · have hqn : node.file_path = some q := hq
      refine ⟨.runtimeError ("Cannot hash file " ++ q), ?_⟩
      simp [detectLoop, hqn, hne, ArtifactNode.compute_hash, hun, Bind.bind,
        Except.bind]
    · have hrest : ∃ p ∈ rest, ∃ q, p.2.file_path = some q ∧ q ≠ "" ∧
          fs q = .unreadable := ⟨p, hmem, q, hq, hne, hun⟩
      obtain ⟨err, herr⟩ := ih hrest
      cases hpath : node.file_path with
      | none => exact ⟨err, by simp [detectLoop, hpath, herr]⟩
      | some q' =>
        by_cases hq' : q' = ""
        · exact ⟨err, by simp [detectLoop, hpath, hq', herr]⟩
        · cases hfs : fs q' with
          | absent =>
            refine ⟨err, ?_⟩
            simp [detectLoop, hpath, hq', ArtifactNode.compute_hash, hfs, herr,
              Bind.bind, Except.bind]
          | readable d =>
            refine ⟨err, ?_⟩
            simp [detectLoop, hpath, hq', ArtifactNode.compute_hash, hfs, herr,
              Bind.bind, Except.bind]
          | unreadable =>
            refine ⟨.runtimeError ("Cannot hash file " ++ q'), ?_⟩
            simp [detectLoop, hpath, hq', ArtifactNode.compute_hash, hfs,
              Bind.bind, Except.bind]

theorem detectLoop_ok (fs : FileSystem) (baseline : List (String × String)) :
    ∀ ns : List (String × ArtifactNode),
    (∀ p ∈ ns, ∀ q, p.2.file_path = some q → q ≠ "" → fs q ≠ .unreadable) →
    ∃ l, detectLoop fs baseline ns = .ok l ∧
      ∀ p ∈ ns, ∀ q h, p.2.file_path = some q → q ≠ "" → fs q = .absent →
        dlookup baseline p.1 = some h →
        (⟨p.1, p.2.name, q, some h, none, "missing"⟩ : ChangedFile) ∈ l := by
  intro ns
  induction ns with
  | nil => exact fun _ => ⟨[], rfl, by rintro p hp; cases hp⟩
  | cons hd rest ih =>
    intro hsafe
    obtain ⟨nid, node⟩ := hd
    have hsr : ∀ p ∈ rest, ∀ q, p.2.file_path = some q → q ≠ "" →
        fs q ≠ .unreadable :=
      fun p hp => hsafe p (List.mem_cons_of_mem _ hp)
    obtain ⟨l, hl, hmem⟩ := ih hsr
    cases hpath : node.file_path with
    | none =>
      refine ⟨l, by simp [detectLoop, hpath, hl], ?_⟩
      rintro p hp q h hq hne hab hb
      rcases List.mem_cons.mp hp with rfl | hpm
      · have hqn : node.file_path = some q := hq
        rw [hpath] at hqn; cases hqn
      · exact hmem p hpm q h hq hne hab hb
    | some q' =>
      by_cases hq' : q' = ""
      · subst hq'
        refine ⟨l, by simp [detectLoop, hpath, hl], ?_⟩
        rintro p hp q h hq hne hab hb
        rcases List.mem_cons.mp hp with rfl | hpm
        · have hqn : node.file_path = some q := hq
          rw [hpath] at hqn
          cases hqn
          exact absurd rfl hne
        · exact hmem p hpm q h hq hne hab hb
      · have hnun : fs q' ≠ .unreadable :=
          hsafe (nid, node) (List.mem_cons_self _ _) q' hpath hq'
        cases hfs : fs q' with
        | unreadable => exact absurd hfs hnun
        | absent =>
          cases hbl : dlookup baseline nid with
          | some h0 =>
            refine ⟨⟨nid, node.name, q', some h0, none, "missing"⟩ :: l, ?_, ?_⟩
            · simp [detectLoop, hpath, hq', ArtifactNode.compute_hash, hfs, hl,
                hbl, Bind.bind, Except.bind]
            · rintro p hp q h hq hne hab hb
              rcases List.mem_cons.mp hp with rfl | hpm
              · have hqn : node.file_path = some q := hq
                rw [hpath] at hqn
                cases hqn
                have hbn : dlookup baseline nid = some h := hb
                rw [hbl] at hbn
                cases hbn
                exact List.mem_cons_self _ _
              · exact List.mem_cons_of_mem _ (hmem p hpm q h hq hne hab hb)
          | none =>
            refine ⟨l, ?_, ?_⟩
            · simp [detectLoop, hpath, hq', ArtifactNode.compute_hash, hfs, hl,
                hbl, Bind.bind, Except.bind]
            · rintro p hp q h hq hne hab hb
              rcases List.mem_cons.mp hp with rfl | hpm
              · have hbn : dlookup baseline nid = some h := hb
                rw [hbl] at hbn; cases hbn
              · exact hmem p hpm q h hq hne hab hb
        | readable d =>
          have hheadvac : ∀ q, node.file_path = some q → q ≠ "" →
              fs q = .absent → False := by
            intro q hq hne hab
            rw [hpath] at hq
            cases hq
            rw [hfs] at hab
            cases hab
          cases hbl : dlookup baseline nid with
          | none =>
            refine ⟨⟨nid, node.name, q', none, some d, "added"⟩ :: l, ?_, ?_⟩
            · simp [detectLoop, hpath, hq', ArtifactNode.compute_hash, hfs, hl,
                hbl, Bind.bind, Except.bind]
            · rintro p hp q h hq hne hab hb
              rcases List.mem_cons.mp hp with rfl | hpm
              · exact (hheadvac q hq hne hab).elim
              · exact List.mem_cons_of_mem _ (hmem p hpm q h hq hne hab hb)
          | some h0 =>
            by_cases hdiff : h0 = d
            · subst hdiff
              refine ⟨l, ?_, ?_⟩
              · simp [detectLoop, hpath, hq', ArtifactNode.compute_hash, hfs,
                  hl, hbl, Bind.bind, Except.bind]
              · rintro p hp q h hq hne hab hb
                rcases List.mem_cons.mp hp with rfl | hpm
                · exact (hheadvac q hq hne hab).elim
                · exact hmem p hpm q h hq hne hab hb
            · refine ⟨⟨nid, node.name, q', some h0, some d, "modified"⟩ :: l,
                ?_, ?_⟩
              · simp [detectLoop, hpath, hq', ArtifactNode.compute_hash, hfs,
                  hl, hbl, hdiff, Bind.bind, Except.bind]
              · rintro p hp q h hq hne hab hb
                rcases List.mem_cons.mp hp with rfl | hpm
                · exact (hheadvac q hq hne hab).elim
                · exact List.mem_cons_of_mem _ (hmem p hpm q h hq hne hab hb)

/-- C1 (counterexample): with a baseline entry for node `n1` and a file
system on which `n1`'s file exists but reading it raises an `OSError`, the
full scan does not record a "missing" status and proceed — it aborts with
the re-raised `RuntimeError`, producing no `ChangeReport` at all. -/
theorem unreadable_file_aborts_full_scan :
    full_scan fsUnreadable c1graph c1baseline 0 =
      .error (.runtimeError "Cannot hash file /ip/aes.xml") := by
  decide

/-- C1 (amended): a genuine I/O error while hashing one node's file aborts
the whole scan with the propagated `RuntimeError` (no `ChangeReport` is
produced); the "missing" status is reserved for files that are simply
absent: when no registered file is unreadable, detection completes, and
every node whose file is absent but present in the baseline is recorded
with status "missing" while the scan proceeds over the remaining nodes. -/
theorem hashing_error_aborts_scan (fs : FileSystem) (g : GraphManager)
    (baseline : List (String × String)) :
    ((∃ p ∈ g.nodes, ∃ q, p.2.file_path = some q ∧ q ≠ "" ∧
        fs q = .unreadable) →
      ∃ err, detect_changes fs g baseline = .error err) ∧
    ((∀ p ∈ g.nodes, ∀ q, p.2.file_path = some q → q ≠ "" →
        fs q ≠ .unreadable) →
      ∃ l, detect_changes fs g baseline = .ok l ∧
        ∀ p ∈ g.nodes, ∀ q h, p.2.file_path = some q → q ≠ "" →
          fs q = .absent → dlookup baseline p.1 = some h →
          (⟨p.1, p.2.name, q, some h, none, "missing"⟩ : ChangedFile) ∈ l) :=
  ⟨detectLoop_error fs baseline g.nodes, detectLoop_ok fs baseline g.nodes⟩

/-- C1 witness: on the one-node graph, an unreadable file aborts detection
with an error, while an absent baselined file yields a "missing" record. -/
theorem hashing_error_aborts_scan_witness :
    (∃ err, detect_changes fsUnreadable c1graph c1baseline = .error err) ∧
    ∃ l, detect_changes fsAbsent c1graph c1baseline = .ok l ∧
      (⟨"n1", "aes_xml", "/ip/aes.xml", some "oldhash", none,
        "missing"⟩ : ChangedFile) ∈ l := by
  refine ⟨?_, ?_⟩
  · exact (hashing_error_aborts_scan fsUnreadable c1graph c1baseline).1
      ⟨("n1", hashedNode), by decide, "/ip/aes.xml", rfl, by decide, by decide⟩
  · obtain ⟨l, hl, hm⟩ :=
      (hashing_error_aborts_scan fsAbsent c1graph c1baseline).2
        (fun p hp q hq hne => by simp [fsAbsent])
    exact ⟨l, hl, hm ("n1", hashedNode) (by decide) "/ip/aes.xml" "oldhash"
      rfl (by decide) rfl (by decide)⟩

theorem nodeType_ofValue_value (t : NodeType) : NodeType.ofValue t.value = some t := by
  cases t <;> rfl

theorem edgeType_ofValue_value (t : EdgeType) : EdgeType.ofValue t.value = some t := by
  cases t <;> rfl

theorem domain_ofValue_value (d : Domain) : Domain.ofValue d.value = some d := by
  cases d <;> rfl

theorem parseNode_saved (n : ArtifactNode) :
    parseNode (savedNodeOf n) = .ok (stripNode n) := by
  simp [parseNode, savedNodeOf, nodeType_ofValue_value, domain_ofValue_value,
    stripNode]

theorem parseEdge_saved (e : DependencyEdge) :
    parseEdge (savedEdgeOf e) = .ok e := by
  simp [parseEdge, savedEdgeOf, edgeType_ofValue_value, domain_ofValue_value]

theorem loadNodes_ok :
    ∀ (ln : List ArtifactNode) (gm : GraphManager),
    (∀ n ∈ ln, n.node_id ∉ dkeys gm.nodes) →
    (ln.map (fun n => n.node_id)).Nodup →
    ∃ gm', loadNodes gm (ln.map savedNodeOf) = .ok gm' ∧
      gm'.nodes = gm.nodes ++ ln.map (fun n => (n.node_id, stripNode n)) ∧
      gm'.edges = gm.edges := by
  intro ln
  induction ln with
  | nil => exact fun gm _ _ => ⟨gm, rfl, by simp, rfl⟩
  | cons n rest ih =>
    intro gm hfresh hnd
    have hn : n.node_id ∉ dkeys gm.nodes := hfresh n (List.mem_cons_self _ _)
    have hadd : gm.add_node (stripNode n) =
        ({ gm with nodes := gm.nodes ++ [(n.node_id, stripNode n)],
                   nx_nodes := nxAddNode gm.nx_nodes n.node_id }, none) := by
      simp [GraphManager.add_node, stripNode, hn]
    obtain ⟨gm', hload, hnodes, hedges⟩ := ih
      { gm with nodes := gm.nodes ++ [(n.node_id, stripNode n)],
                nx_nodes := nxAddNode gm.nx_nodes n.node_id }
      (by
        intro m hm
        have hm1 : m.node_id ∉ dkeys gm.nodes :=
          hfresh m (List.mem_cons_of_mem _ hm)
        have hm2 : m.node_id ≠ n.node_id := by
          intro heq
          have hmm : n.node_id ∈ rest.map (fun x => x.node_id) := by
            rw [← heq]; exact List.mem_map_of_mem _ hm
          exact (List.nodup_cons.mp hnd).1 hmm
        simp [dkeys, List.mem_map] at hm1 ⊢
        exact ⟨hm1, hm2⟩)
      (List.nodup_cons.mp hnd).2
    refine ⟨gm', ?_, ?_, hedges⟩
    · simp only [List.map_cons, loadNodes, parseNode_saved, hadd, toExcept,
        Bind.bind, Except.bind]
      exact hload
    · rw [hnodes]; simp

theorem loadEdges_ok :
    ∀ (le : List DependencyEdge) (gm : GraphManager),
    (∀ e ∈ le, e.source_id ∈ dkeys gm.nodes ∧ e.target_id ∈ dkeys gm.nodes) →
    (∀ e ∈ le, e.edge_id ∉ dkeys gm.edges) →
    (le.map (fun e => e.edge_id)).Nodup →
    ∃ gm', loadEdges gm (le.map savedEdgeOf) = .ok gm' ∧
      gm'.nodes = gm.nodes ∧
      gm'.edges = gm.edges ++ le.map (fun e => (e.edge_id, e)) := by
  intro le
  induction le with
  | nil => exact fun gm _ _ _ => ⟨gm, rfl, rfl, by simp⟩
  | cons e rest ih =>
    intro gm hep hfresh hnd
    have hsrc : e.source_id ∈ dkeys gm.nodes :=
      (hep e (List.mem_cons_self _ _)).1
    have htgt : e.target_id ∈ dkeys gm.nodes :=
      (hep e (List.mem_cons_self _ _)).2
    have hid : e.edge_id ∉ dkeys gm.edges := hfresh e (List.mem_cons_self _ _)
    have hadd : gm.add_edge e =
        ({ gm with edges := gm.edges ++ [(e.edge_id, e)],
                   nx_nodes := nxAddNode (nxAddNode gm.nx_nodes e.source_id)
                     e.target_id,
                   nx_edges := nxAddEdge gm.nx_edges e.source_id e.target_id
                     ⟨e.edge_type.value, e.label, e.domain.value⟩ }, none) := by
      simp [GraphManager.add_edge, hsrc, htgt, hid]
    obtain ⟨gm', hload, hnodes, hedges⟩ := ih
      { gm with edges := gm.edges ++ [(e.edge_id, e)],
                nx_nodes := nxAddNode (nxAddNode gm.nx_nodes e.source_id)
                  e.target_id,
                nx_edges := nxAddEdge gm.nx_edges e.source_id e.target_id
                  ⟨e.edge_type.value, e.label, e.domain.value⟩ }
      (fun f hf => hep f (List.mem_cons_of_mem _ hf))
      (by
        intro f hf
        have hf1 : f.edge_id ∉ dkeys gm.edges :=
          hfresh f (List.mem_cons_of_mem _ hf)
        have hf2 : f.edge_id ≠ e.edge_id := by
          intro heq
          have hmm : e.edge_id ∈ rest.map (fun x => x.edge_id) := by
            rw [← heq]; exact List.mem_map_of_mem _ hf
          exact (List.nodup_cons.mp hnd).1 hmm
        simp [dkeys, List.mem_map] at hf1 ⊢
        exact ⟨hf1, hf2⟩)
      (List.nodup_cons.mp hnd).2
    refine ⟨gm', ?_, hnodes, ?_⟩
    · simp only [List.map_cons, loadEdges, parseEdge_saved, hadd, toExcept,
        Bind.bind, Except.bind]
      exact hload
    · rw [hedges]; simp

/-- C4: loading the saved snapshot of a well-formed graph succeeds and
reconstructs the same node set (same ids, same persisted fields — the
non-persisted `defined_elements` inventory restarts empty), the same edge
set (same source, kind, target keys), and every edge's `mapping_details`
record list verbatim (indeed every edge field). -/
theorem save_load_round_trip (g : GraphManager)
    (hnid : ∀ p ∈ g.nodes, p.1 = p.2.node_id)
    (hndk : (dkeys g.nodes).Nodup)
    (hed : ∀ p ∈ g.edges, p.1 = p.2.edge_id ∧
      p.2.source_id ∈ dkeys g.nodes ∧ p.2.target_id ∈ dkeys g.nodes)
    (hedk : (dkeys g.edges).Nodup) :
    ∃ g', GraphManager.load (GraphManager.save g) = .ok g' ∧
      g'.nodes = g.nodes.map (fun p => (p.1, stripNode p.2)) ∧
      g'.edges = g.edges := by
  have hids : (g.nodes.map Prod.snd).map (fun n => n.node_id) =
      dkeys g.nodes := by
    rw [List.map_map]
    exact List.map_congr_left (fun p hp => (hnid p hp).symm)
  obtain ⟨gm1, hl1, hn1, he1⟩ := loadNodes_ok (g.nodes.map Prod.snd) .empty
    (by intro n hn; simp [GraphManager.empty, dkeys])
    (by rw [hids]; exact hndk)
  have hn1' : gm1.nodes = g.nodes.map (fun p => (p.1, stripNode p.2)) := by
    rw [hn1]
    simp only [GraphManager.empty, List.nil_append, List.map_map]
    exact List.map_congr_left (fun p hp => by
      show ((p.2).node_id, stripNode p.2) = (p.1, stripNode p.2)
      rw [hnid p hp])
  have hkeys1 : dkeys gm1.nodes = dkeys g.nodes := by
    rw [hn1']; simp [dkeys, List.map_map]
  have heids : (g.edges.map Prod.snd).map (fun e => e.edge_id) =
      dkeys g.edges := by
    rw [List.map_map]
    exact List.map_congr_left (fun p hp => ((hed p hp).1).symm)
  obtain ⟨g', hl2, hn2, he2⟩ := loadEdges_ok (g.edges.map Prod.snd) gm1
    (by
      intro e he
      obtain ⟨p, hp, rfl⟩ := List.mem_map.mp he
      rw [hkeys1]
      exact ⟨(hed p hp).2.1, (hed p hp).2.2⟩)
    (by intro e he; rw [he1]; simp [GraphManager.empty, dkeys])
    (by rw [heids]; exact hedk)
  have hl1' : loadNodes .empty (g.nodes.map (fun p => savedNodeOf p.2)) =
      .ok gm1 := by
    rw [show g.nodes.map (fun p => savedNodeOf p.2) =
        (g.nodes.map Prod.snd).map savedNodeOf from by rw [List.map_map]; rfl]
    exact hl1
  have hl2' : loadEdges gm1 (g.edges.map (fun p => savedEdgeOf p.2)) =
      .ok g' := by
    rw [show g.edges.map (fun p => savedEdgeOf p.2) =
        (g.edges.map Prod.snd).map savedEdgeOf from by rw [List.map_map]; rfl]
    exact hl2
  refine ⟨g', ?_, by rw [hn2, hn1'], ?_⟩
  · show GraphManager.load (GraphManager.save g) = .ok g'
    unfold GraphManager.load GraphManager.save
    simp only [hl1', Bind.bind, Except.bind, hl2']
  · rw [he2, he1]
    simp only [GraphManager.empty, List.nil_append, List.map_map]
    show g.edges.map (fun p => ((p.2).edge_id, p.2)) = g.edges
    have hmc : g.edges.map (fun p => ((p.2).edge_id, p.2)) =
        g.edges.map (fun p => (p.1, p.2)) :=
      List.map_congr_left (fun p hp => by rw [(hed p hp).1])
    rw [hmc]
    simp

/-- C4 witness: the round trip on the concrete two-node, one-edge graph. -/
theorem save_load_round_trip_witness :
    ((∀ p ∈ gAB.nodes, p.1 = p.2.node_id) ∧ (dkeys gAB.nodes).Nodup ∧
     (∀ p ∈ gAB.edges, p.1 = p.2.edge_id ∧
       p.2.source_id ∈ dkeys gAB.nodes ∧ p.2.target_id ∈ dkeys gAB.nodes) ∧
     (dkeys gAB.edges).Nodup) ∧
    ∃ g', GraphManager.load (GraphManager.save gAB) = .ok g' ∧
      g'.nodes = gAB.nodes.map (fun p => (p.1, stripNode p.2)) ∧
      g'.edges = gAB.edges :=
  ⟨⟨by decide, by decide, by decide, by decide⟩,
   save_load_round_trip gAB (by decide) (by decide) (by decide) (by decide)⟩

theorem flatMap_nil_of_all {α γ : Type} :
    ∀ (l : List α) (F : α → List γ), (∀ y ∈ l, F y = []) → l.flatMap F = [] := by
  intro l F h
  induction l with
  | nil => rfl
  | cons x xs ih =>
    rw [List.flatMap_cons, h x (List.mem_cons_self _ _),
      ih (fun y hy => h y (List.mem_cons_of_mem _ hy))]
    rfl

theorem flatMap_single {α β γ : Type} [DecidableEq α] :
    ∀ (l : List (α × β)) (x : α × β) (F : α × β → List γ),
    (dkeys l).Nodup → x ∈ l → (∀ y ∈ l, y.1 ≠ x.1 → F y = []) →
    l.flatMap F = F x := by
  intro l
  induction l with
  | nil => intro x F _ hx; cases hx
  | cons h t ih =>
    intro x F hnd hx hside
    rcases List.mem_cons.mp hx with rfl | hxt
    · rw [List.flatMap_cons, flatMap_nil_of_all t F ?tail]
      · rw [List.append_nil]
      case tail =>
        intro y hy
        apply hside y (List.mem_cons_of_mem _ hy)
        intro heq
        exact (List.nodup_cons.mp hnd).1 (heq ▸ List.mem_map_of_mem _ hy)
    · have hh : h.1 ≠ x.1 := by
        intro heq
        exact (List.nodup_cons.mp hnd).1 (heq ▸ List.mem_map_of_mem _ hxt)
      rw [List.flatMap_cons, hside h (List.mem_cons_self _ _) hh,
        List.nil_append]
      exact ih x F (List.nodup_cons.mp hnd).2 hxt
        (fun y hy => hside y (List.mem_cons_of_mem _ hy))

theorem flatMap_ite_singleton {α β : Type} (l : List α) (P : α → Prop)
    [DecidablePred P] (f : α → β) :
    (l.flatMap (fun x => if P x then [] else [f x])) =
      (l.filter (fun x => !(decide (P x)))).map f := by
  induction l with
  | nil => rfl
  | cons x xs ih =>
    by_cases hx : P x <;> simp [List.flatMap_cons, hx, ih, List.filter_cons]

theorem level1CatItems_fields (g : GraphManager) (nid : String)
    (node : ArtifactNode) (k : String) (vs : List String) :
    ∀ it ∈ level1CatItems g nid node k vs,
      it.node_id = nid ∧ it.mapping_category = k := by
  intro it hit
  unfold level1CatItems at hit
  split at hit
  · cases hit
  · simp only [List.mem_flatMap] at hit
    obtain ⟨et, -, hit⟩ := hit
    split at hit
    · cases hit
    · split at hit <;>
        exact (List.mem_singleton.mp hit) ▸ ⟨rfl, rfl⟩

theorem level1NodeItems_node_id (g : GraphManager) (a : String)
    (b : ArtifactNode) : ∀ it ∈ level1NodeItems g a b, it.node_id = a := by
  intro it hit
  unfold level1NodeItems at hit
  split at hit
  · split at hit
    · exact (List.mem_singleton.mp hit) ▸ rfl
    · simp only [List.mem_flatMap] at hit
      obtain ⟨q, -, hit⟩ := hit
      exact (level1CatItems_fields g a b q.1 q.2 it hit).1
  · cases hit

/-- C7: in the Level-1 pass, the items attributed to a validated node (an
IP-XACT component or design with a non-empty inventory) and one of its
non-empty element categories are exactly one item per expected target kind:
PASS when the node has an outgoing edge to a stored node of that kind, and
otherwise a FAIL whose message and details name the missing target kind and
the declared element values — except that the (clocks, CDC-constraint) pair
with one or fewer declared clocks produces no item at all. -/
theorem level1_pair_items (g : GraphManager) (nid : String)
    (node : ArtifactNode) (cat : String) (vals : List String)
    (hkeys : (dkeys g.nodes).Nodup)
    (hmem : (nid, node) ∈ g.nodes)
    (htype : node.node_type = .IPXACT_COMPONENT ∨
      node.node_type = .IPXACT_DESIGN)
    (hne : node.defined_elements ≠ [])
    (hdk : (dkeys node.defined_elements).Nodup)
    (hcat : (cat, vals) ∈ node.defined_elements)
    (hvals : vals ≠ []) :
    (level1_structural g).filter
        (fun it => decide (it.node_id = nid ∧ it.mapping_category = cat)) =
      ((expectedOutputsOf cat).filter (fun et =>
        !(decide (et = NodeType.CDC_CONSTRAINT ∧ cat = "clocks" ∧
          vals.length ≤ 1)))).map
        (fun et => if et ∈ targetTypesOf g nid
          then level1PassItem nid node cat et
          else level1FailItem nid node cat vals et) := by
  have hstep1 : (level1_structural g).filter
      (fun it => decide (it.node_id = nid ∧ it.mapping_category = cat)) =
      (level1NodeItems g nid node).filter
        (fun it => decide (it.node_id = nid ∧ it.mapping_category = cat)) := by
    unfold level1_structural
    rw [List.filter_flatMap]
    exact flatMap_single g.nodes (nid, node) _ hkeys hmem (by
      intro y hy hne1
      apply List.filter_eq_nil_iff.mpr
      intro it hit
      have hid := level1NodeItems_node_id g y.1 y.2 it hit
      simp [hid, hne1])
  have hstep2 : (level1NodeItems g nid node).filter
      (fun it => decide (it.node_id = nid ∧ it.mapping_category = cat)) =
      (level1CatItems g nid node cat vals).filter
        (fun it => decide (it.node_id = nid ∧ it.mapping_category = cat)) := by
    unfold level1NodeItems
    rw [if_pos htype, if_neg (by simpa [List.isEmpty_iff] using hne)]
    rw [List.filter_flatMap]
    exact flatMap_single node.defined_elements (cat, vals) _ hdk hcat (by
      intro y hy hne1
      apply List.filter_eq_nil_iff.mpr
      intro it hit
      have hf := level1CatItems_fields g nid node y.1 y.2 it hit
      simp [hf.2, hne1])
  have hstep3 : (level1CatItems g nid node cat vals).filter
      (fun it => decide (it.node_id = nid ∧ it.mapping_category = cat)) =
      level1CatItems g nid node cat vals := by
    apply List.filter_eq_self.mpr
    intro it hit
    have hf := level1CatItems_fields g nid node cat vals it hit
    simp [hf.1, hf.2]
  rw [hstep1, hstep2, hstep3]
  unfold level1CatItems
  rw [if_neg (by simpa [List.isEmpty_iff] using hvals)]
  have hbody : ∀ et : NodeType,
      (if et = NodeType.CDC_CONSTRAINT ∧ cat = "clocks" ∧ vals.length ≤ 1
       then ([] : List ValidationItem)
       else if et ∈ targetTypesOf g nid then [level1PassItem nid node cat et]
       else [level1FailItem nid node cat vals et]) =
      (if et = NodeType.CDC_CONSTRAINT ∧ cat = "clocks" ∧ vals.length ≤ 1
       then ([] : List ValidationItem)
       else [if et ∈ targetTypesOf g nid then level1PassItem nid node cat et
             else level1FailItem nid node cat vals et]) := by
    intro et
    by_cases h1 : et = NodeType.CDC_CONSTRAINT ∧ cat = "clocks" ∧
        vals.length ≤ 1
    · simp [h1]
    · by_cases h2 : et ∈ targetTypesOf g nid <;> simp [h1, h2]
  simp only [hbody]
  exact flatMap_ite_singleton (expectedOutputsOf cat) _ _

/-- C7 witness: in the Scenario-A graph the `clocks` category of the
component (two declared clocks) yields exactly a PASS for the SDC kind and
a FAIL for the CDC kind, in table order. -/
theorem level1_pair_items_witness :
    ((dkeys c3graph.nodes).Nodup ∧
     ("comp", compNode) ∈ c3graph.nodes ∧
     compNode.defined_elements ≠ [] ∧
     (dkeys compNode.defined_elements).Nodup ∧
     ("clocks", ["i_clk", "i_clk_dft"]) ∈ compNode.defined_elements) ∧
    (level1_structural c3graph).filter
        (fun it => decide (it.node_id = "comp" ∧
          it.mapping_category = "clocks")) =
      ((expectedOutputsOf "clocks").filter (fun et =>
        !(decide (et = NodeType.CDC_CONSTRAINT ∧ "clocks" = "clocks" ∧
          (["i_clk", "i_clk_dft"] : List String).length ≤ 1)))).map
        (fun et => if et ∈ targetTypesOf c3graph "comp"
          then level1PassItem "comp" compNode "clocks" et
          else level1FailItem "comp" compNode "clocks"
            ["i_clk", "i_clk_dft"] et) :=
  ⟨⟨by decide, by decide, by decide, by decide, by decide⟩,
   level1_pair_items c3graph "comp" compNode "clocks" ["i_clk", "i_clk_dft"]
     (by decide) (by decide) (Or.inl (by decide)) (by decide) (by decide)
     (by decide) (by decide)⟩

theorem flatMap_single_proj {α γ : Type} :
    ∀ (l : List α) (x : α) (F : α → List γ) (key : α → String),
    (l.map key).Nodup → x ∈ l → (∀ y ∈ l, key y ≠ key x → F y = []) →
    l.flatMap F = F x := by
  intro l
  induction l with
  | nil => intro x F key _ hx; cases hx
  | cons h t ih =>
    intro x F key hnd hx hside
    rcases List.mem_cons.mp hx with rfl | hxt
    · rw [List.flatMap_cons, flatMap_nil_of_all t F ?tail]
      · rw [List.append_nil]
      case tail =>
        intro y hy
        apply hside y (List.mem_cons_of_mem _ hy)
        intro heq
        exact (List.nodup_cons.mp hnd).1 (heq ▸ List.mem_map_of_mem _ hy)
    · have hh : key h ≠ key x := by
        intro heq
        exact (List.nodup_cons.mp hnd).1 (heq ▸ List.mem_map_of_mem _ hxt)
      rw [List.flatMap_cons, hside h (List.mem_cons_self _ _) hh,
        List.nil_append]
      exact ih x F key (List.nodup_cons.mp hnd).2 hxt
        (fun y hy => hside y (List.mem_cons_of_mem _ hy))

theorem level3CheckItems_fields (g : GraphManager) (nid : String)
    (node : ArtifactNode) (check : CoverageCheck) :
    ∀ it ∈ level3CheckItems g nid node check,
      it.node_id = nid ∧ it.mapping_category = check.mapping_category := by
  intro it hit
  simp only [level3CheckItems] at hit
  split at hit
  · cases hit
  · split at hit
    · cases hit
    · rcases List.mem_append.mp hit with h | h
      · split at h <;> exact (List.mem_singleton.mp h) ▸ ⟨rfl, rfl⟩
      · split at h
        · cases h
        · exact (List.mem_singleton.mp h) ▸ ⟨rfl, rfl⟩

theorem level3NodeItems_node_id (g : GraphManager) (a : String)
    (b : ArtifactNode) : ∀ it ∈ level3NodeItems g a b, it.node_id = a := by
  intro it hit
  unfold level3NodeItems at hit
  split at hit
  · cases hit
  · simp only [List.mem_flatMap] at hit
    obtain ⟨c, -, hit⟩ := hit
    exact (level3CheckItems_fields g a b c it hit).1

/-- C8: whenever a Level-3 check finds declared elements uncovered (the
node declares the category, relevant edges exist, and the missing set is
non-empty), the pass emits exactly one FAIL item for that node and mapping
category, and that item names exactly the uncovered elements (sorted) and
the numeric coverage fraction covered/declared, rounded to one decimal, in
its details. -/
theorem level3_uncovered_fail (g : GraphManager) (nid : String)
    (node : ArtifactNode) (check : CoverageCheck)
    (hkeys : (dkeys g.nodes).Nodup)
    (hmem : (nid, node) ∈ g.nodes)
    (hcheck : check ∈ COVERAGE_CHECKS)
    (helems : level3Elements node check ≠ [])
    (hrel : relevantEdgesOf g nid check ≠ [])
    (hmiss : level3Missing g nid node check ≠ []) :
    (level3_element_coverage g).filter
        (fun it => decide (it.node_id = nid ∧
          it.mapping_category = check.mapping_category ∧
          it.severity = "FAIL")) =
      [level3FailItem nid node check (pySetOf (level3Elements node check))
        (level3Covered g nid node check) (level3Missing g nid node check)] := by
  have hdeffne : node.defined_elements ≠ [] := by
    intro h
    exact helems (by simp [level3Elements, h, dlookup])
  have hstep1 : (level3_element_coverage g).filter
      (fun it => decide (it.node_id = nid ∧
        it.mapping_category = check.mapping_category ∧
        it.severity = "FAIL")) =
      (level3NodeItems g nid node).filter
        (fun it => decide (it.node_id = nid ∧
          it.mapping_category = check.mapping_category ∧
          it.severity = "FAIL")) := by
    unfold level3_element_coverage
    rw [List.filter_flatMap]
    exact flatMap_single g.nodes (nid, node) _ hkeys hmem (by
      intro y hy hne1
      apply List.filter_eq_nil_iff.mpr
      intro it hit
      have hid := level3NodeItems_node_id g y.1 y.2 it hit
      simp [hid, hne1])
  have hcatinj : ∀ c1 ∈ COVERAGE_CHECKS, ∀ c2 ∈ COVERAGE_CHECKS,
      c1.mapping_category = c2.mapping_category → c1 = c2 := by decide
  have hstep2 : (level3NodeItems g nid node).filter
      (fun it => decide (it.node_id = nid ∧
        it.mapping_category = check.mapping_category ∧
        it.severity = "FAIL")) =
      (level3CheckItems g nid node check).filter
        (fun it => decide (it.node_id = nid ∧
          it.mapping_category = check.mapping_category ∧
          it.severity = "FAIL")) := by
    unfold level3NodeItems
    rw [if_neg (by simpa [List.isEmpty_iff] using hdeffne)]
    rw [List.filter_flatMap]
    refine flatMap_single_proj COVERAGE_CHECKS check _
      (fun c => c.mapping_category) (by decide) hcheck ?_
    intro y hy hne1
    apply List.filter_eq_nil_iff.mpr
    intro it hit
    have hf := level3CheckItems_fields g nid node y it hit
    simp [hf.2, hne1]
  have h1 : ¬(((dlookup node.defined_elements check.element_key).getD
      []).isEmpty = true) := by
    simpa [level3Elements, List.isEmpty_iff] using helems
  have h2 : ¬((relevantEdgesOf g nid check).isEmpty = true) := by
    simpa [List.isEmpty_iff] using hrel
  have h3 : ¬((sDiff (pySetOf ((dlookup node.defined_elements
      check.element_key).getD []))
      (mappedElementsOf (relevantEdgesOf g nid check) check.mapping_category
        check.element_field_in_mapping)).isEmpty = true) := by
    simpa [level3Missing, level3Mapped, level3Elements, List.isEmpty_iff]
      using hmiss
  rw [hstep1, hstep2]
  simp only [level3CheckItems]
  rw [if_neg h1, if_neg h2, if_neg h3, List.filter_append]
  have hfail : [level3FailItem nid node check
      (pySetOf ((dlookup node.defined_elements check.element_key).getD []))
      (sInter (pySetOf ((dlookup node.defined_elements
        check.element_key).getD []))
        (mappedElementsOf (relevantEdgesOf g nid check)
          check.mapping_category check.element_field_in_mapping))
      (sDiff (pySetOf ((dlookup node.defined_elements
        check.element_key).getD []))
        (mappedElementsOf (relevantEdgesOf g nid check)
          check.mapping_category check.element_field_in_mapping))].filter
      (fun it => decide (it.node_id = nid ∧
        it.mapping_category = check.mapping_category ∧
        it.severity = "FAIL")) =
      [level3FailItem nid node check (pySetOf (level3Elements node check))
        (level3Covered g nid node check) (level3Missing g nid node check)] := by
    simp [level3FailItem, level3Covered, level3Missing, level3Mapped,
      level3Elements]
  rw [hfail]
  have hwarn : ((if (sDiff (mappedElementsOf (relevantEdgesOf g nid check)
      check.mapping_category check.element_field_in_mapping)
      (pySetOf ((dlookup node.defined_elements
        check.element_key).getD []))).isEmpty = true
      then ([] : List ValidationItem)
      else [level3ExtraWarning nid node check
        (sDiff (mappedElementsOf (relevantEdgesOf g nid check)
          check.mapping_category check.element_field_in_mapping)
          (pySetOf ((dlookup node.defined_elements
            check.element_key).getD [])))]).filter
      (fun it => decide (it.node_id = nid ∧
        it.mapping_category = check.mapping_category ∧
        it.severity = "FAIL"))) = [] := by
    split <;> simp [level3ExtraWarning]
  rw [hwarn, List.append_nil]

/-- C8 witness: Scenario B — a node declaring ten ports with one edge to an
RTL wrapper carrying a single `port_naming` record produces exactly one
FAIL item whose details name the nine uncovered ports and a 10.0 percent
coverage fraction. -/
theorem level3_uncovered_fail_witness :
    ((dkeys c8graph.nodes).Nodup ∧ ("ip", portsNode) ∈ c8graph.nodes ∧
     (⟨"ports", "port_naming", "ipxact_port",
       [.RTL_WRAPPER]⟩ : CoverageCheck) ∈ COVERAGE_CHECKS ∧
     level3Missing c8graph "ip" portsNode
       ⟨"ports", "port_naming", "ipxact_port", [.RTL_WRAPPER]⟩ =
       ["p1", "p2", "p3", "p4", "p5", "p6", "p7", "p8", "p9"] ∧
     level3Covered c8graph "ip" portsNode
       ⟨"ports", "port_naming", "ipxact_port", [.RTL_WRAPPER]⟩ = ["p0"]) ∧
    (level3_element_coverage c8graph).filter
        (fun it => decide (it.node_id = "ip" ∧
          it.mapping_category = "port_naming" ∧ it.severity = "FAIL")) =
      [level3FailItem "ip" portsNode
        ⟨"ports", "port_naming", "ipxact_port", [.RTL_WRAPPER]⟩
        (pySetOf (level3Elements portsNode
          ⟨"ports", "port_naming", "ipxact_port", [.RTL_WRAPPER]⟩))
        (level3Covered c8graph "ip" portsNode
          ⟨"ports", "port_naming", "ipxact_port", [.RTL_WRAPPER]⟩)
        (level3Missing c8graph "ip" portsNode
          ⟨"ports", "port_naming", "ipxact_port", [.RTL_WRAPPER]⟩)] :=
  ⟨⟨by decide, by decide, by decide, by decide, by decide⟩,
   level3_uncovered_fail c8graph "ip" portsNode
     ⟨"ports", "port_naming", "ipxact_port", [.RTL_WRAPPER]⟩
     (by decide) (by decide) (by decide) (by decide) (by decide) (by decide)⟩

theorem mem_nxPairs (g : GraphManager) (s t : String) :
    (s, t) ∈ nxPairs g ↔ ∃ q ∈ g.nx_edges, q.1 = s ∧ q.2.1 = t := by
  simp only [nxPairs, List.mem_map, Prod.mk.injEq]

theorem mem_edgePairs (g : GraphManager) (s t : String) :
    (s, t) ∈ edgePairs g ↔
      ∃ p ∈ g.edges, p.2.source_id = s ∧ p.2.target_id = t := by
  simp only [edgePairs, List.mem_map, Prod.mk.injEq]

theorem mem_successors_iff (g : GraphManager) (s t : String) :
    t ∈ g.successors s ↔ (s, t) ∈ nxPairs g := by
  rw [mem_nxPairs]
  simp only [GraphManager.successors, List.mem_map, List.mem_filter,
    beq_iff_eq]
  constructor
  · rintro ⟨q, ⟨hq, h1⟩, h2⟩; exact ⟨q, hq, h1, h2⟩
  · rintro ⟨q, hq, h1, h2⟩; exact ⟨q, ⟨hq, h1⟩, h2⟩

theorem nx_any_iff (g : GraphManager) (s t : String) :
    (g.nx_edges.any (fun q => q.1 == s && q.2.1 == t) = true) ↔
      (s, t) ∈ nxPairs g := by
  rw [mem_nxPairs]
  simp [List.any_eq_true]

theorem dkeys_filter_ne {β : Type} (l : List (String × β)) (k : String) :
    dkeys (l.filter (fun p => p.1 ≠ k)) =
      (dkeys l).filter (fun x => x ≠ k) := by
  induction l with
  | nil => rfl
  | cons h t ih =>
    by_cases hh : h.1 = k <;>
      simp [dkeys, List.filter_cons, hh] <;>
      simpa [dkeys] using ih

theorem inv_add_node (g : GraphManager) (n : ArtifactNode)
    (h : GraphInv g) : GraphInv (g.add_node n).1 := by
  obtain ⟨h1, h2, h3, h4, h5, h6, h7⟩ := h
  by_cases hc : n.node_id ∈ dkeys g.nodes
  · simpa [GraphManager.add_node, hc] using
      ⟨h1, h2, h3, h4, h5, h6, h7⟩
  · simp only [GraphManager.add_node, hc, if_neg, if_false]
    refine ⟨?_, h2, h3, h4, h5, h6, h7⟩
    show nxAddNode g.nx_nodes n.node_id = dkeys (g.nodes ++ [(n.node_id, n)])
    rw [nxAddNode, if_neg (by rw [h1]; exact hc), h1]
    simp [dkeys]

theorem inv_update_node (g : GraphManager) (n : ArtifactNode)
    (h : GraphInv g) : GraphInv (g.update_node n).1 := by
  obtain ⟨h1, h2, h3, h4, h5, h6, h7⟩ := h
  by_cases hc : n.node_id ∈ dkeys g.nodes
  · simp only [GraphManager.update_node, hc, if_pos]
    refine ⟨?_, h2, h3, h4, h5, h6, h7⟩
    show g.nx_nodes = dkeys (g.nodes.map
      (fun p => if p.1 = n.node_id then (p.1, n) else p))
    rw [h1]
    simp only [dkeys, List.map_map]
    apply List.map_congr_left
    intro p _
    by_cases hp : p.1 = n.node_id <;> simp [hp]
  · simpa [GraphManager.update_node, hc] using
      ⟨h1, h2, h3, h4, h5, h6, h7⟩

theorem inv_remove_node (g : GraphManager) (nid : String)
    (h : GraphInv g) : GraphInv (g.remove_node nid).1 := by
  obtain ⟨h1, h2, h3, h4, h5, h6, h7⟩ := h
  by_cases hc : nid ∈ dkeys g.nodes
  · have hx : nid ∈ g.nx_nodes := by rw [h1]; exact hc
    simp only [GraphManager.remove_node, hc, hx, if_true, reduceIte]
    refine ⟨?_, ?_, ?_, ?_, ?_, ?_, ?_⟩
    · show g.nx_nodes.filter (fun x => x ≠ nid) =
        dkeys (g.nodes.filter (fun p => p.1 ≠ nid))
      rw [dkeys_filter_ne, h1]
    · exact fun p hp => h2 p (List.mem_of_mem_filter hp)
    · exact List.Nodup.sublist ((List.filter_sublist _).map Prod.fst) h3
    · exact List.Nodup.sublist ((List.filter_sublist _).map _) h4
    · exact List.Nodup.sublist ((List.filter_sublist _).map _) h5
    · rintro ⟨a, b⟩ hpr
      obtain ⟨q, hq, hq1, hq2⟩ := (mem_nxPairs _ a b).mp hpr
      rw [List.mem_filter] at hq
      obtain ⟨hqm, hqc⟩ := hq
      simp only [Bool.not_eq_true', Bool.or_eq_false_iff,
        beq_eq_false_iff_ne] at hqc
      have hold : (a, b) ∈ edgePairs g := by
        apply h6
        rw [mem_nxPairs]
        exact ⟨q, hqm, hq1, hq2⟩
      obtain ⟨p, hp, hp1, hp2⟩ := (mem_edgePairs _ a b).mp hold
      rw [mem_edgePairs]
      refine ⟨p, List.mem_filter.mpr ⟨hp, ?_⟩, hp1, hp2⟩
      simp only [Bool.not_eq_true', Bool.or_eq_false_iff,
        beq_eq_false_iff_ne]
      rw [hp1, hp2, ← hq1, ← hq2]
      exact hqc
    · rintro ⟨a, b⟩ hpr
      obtain ⟨p, hp, hp1, hp2⟩ := (mem_edgePairs _ a b).mp hpr
      rw [List.mem_filter] at hp
      obtain ⟨hpm, hpc⟩ := hp
      simp only [Bool.not_eq_true', Bool.or_eq_false_iff,
        beq_eq_false_iff_ne] at hpc
      have hold : (a, b) ∈ nxPairs g := by
        apply h7
        rw [mem_edgePairs]
        exact ⟨p, hpm, hp1, hp2⟩
      obtain ⟨q, hq, hq1, hq2⟩ := (mem_nxPairs _ a b).mp hold
      rw [mem_nxPairs]
      refine ⟨q, List.mem_filter.mpr ⟨hq, ?_⟩, hq1, hq2⟩
      simp only [Bool.not_eq_true', Bool.or_eq_false_iff,
        beq_eq_false_iff_ne]
      rw [hq1, hq2, ← hp1, ← hp2]
      exact hpc
  · simpa [GraphManager.remove_node, hc] using
      ⟨h1, h2, h3, h4, h5, h6, h7⟩

theorem inv_add_edge (g : GraphManager) (e : DependencyEdge)
    (h : GraphInv g)
    (hs : ∀ p ∈ g.edges,
      ¬(p.2.source_id = e.source_id ∧ p.2.target_id = e.target_id)) :
    GraphInv (g.add_edge e).1 := by
  obtain ⟨h1, h2, h3, h4, h5, h6, h7⟩ := h
  by_cases hc1 : e.source_id ∈ dkeys g.nodes
  on_goal 2 =>
    simpa [GraphManager.add_edge, hc1] using ⟨h1, h2, h3, h4, h5, h6, h7⟩
  by_cases hc2 : e.target_id ∈ dkeys g.nodes
  on_goal 2 =>
    simpa [GraphManager.add_edge, hc1, hc2] using
      ⟨h1, h2, h3, h4, h5, h6, h7⟩
  by_cases hc3 : e.edge_id ∈ dkeys g.edges
  · simpa [GraphManager.add_edge, hc1, hc2, hc3] using
      ⟨h1, h2, h3, h4, h5, h6, h7⟩
  · have hpair : (e.source_id, e.target_id) ∉ edgePairs g := by
      rw [mem_edgePairs]
      rintro ⟨p, hp, hp1, hp2⟩
      exact hs p hp ⟨hp1, hp2⟩
    have hnx : (e.source_id, e.target_id) ∉ nxPairs g := fun hm => hpair (h6 _ hm)
    have hany : g.nx_edges.any
        (fun q => q.1 == e.source_id && q.2.1 == e.target_id) = false := by
      rw [Bool.eq_false_iff]
      intro hh
      exact hnx ((nx_any_iff _ _ _).mp hh)
    have hs1 : nxAddNode g.nx_nodes e.source_id = g.nx_nodes := by
      rw [nxAddNode, if_pos (by rw [h1]; exact hc1)]
    have hs2 : nxAddNode g.nx_nodes e.target_id = g.nx_nodes := by
      rw [nxAddNode, if_pos (by rw [h1]; exact hc2)]
    have hstate : (g.add_edge e).1 =
        { g with edges := g.edges ++ [(e.edge_id, e)],
                 nx_edges := g.nx_edges ++ [(e.source_id, e.target_id,
                   ⟨e.edge_type.value, e.label, e.domain.value⟩)] } := by
      simp [GraphManager.add_edge, hc1, hc2, hc3, nxAddEdge, hany, hs1, hs2]
    rw [hstate]
    refine ⟨h1, ?_, ?_, ?_, ?_, ?_, ?_⟩
    · intro p hp
      rcases List.mem_append.mp hp with hpo | hpn
      · exact h2 p hpo
      · rw [List.mem_singleton.mp hpn]
    · dsimp only
      rw [show dkeys (g.edges ++ [(e.edge_id, e)]) =
          dkeys g.edges ++ [e.edge_id] from by simp [dkeys]]
      rw [List.nodup_append]
      refine ⟨h3, List.nodup_singleton _, ?_⟩
      intro a ha hb
      rw [List.mem_singleton] at hb
      subst hb
      exact hc3 ha
    · dsimp only [edgePairs]
      rw [List.map_append, List.nodup_append]
      refine ⟨h4, List.nodup_singleton _, ?_⟩
      intro a ha hb
      rw [List.map_singleton, List.mem_singleton] at hb
      subst hb
      exact hpair ha
    · dsimp only [nxPairs]
      rw [List.map_append, List.nodup_append]
      refine ⟨h5, List.nodup_singleton _, ?_⟩
      intro a ha hb
      rw [List.map_singleton, List.mem_singleton] at hb
      subst hb
      exact hnx ha
    · intro pr hpr
      simp only [nxPairs, edgePairs, List.map_append, List.mem_append] at hpr ⊢
      rcases hpr with hold | hnew
      · exact Or.inl (h6 pr hold)
      · exact Or.inr hnew
    · intro pr hpr
      simp only [nxPairs, edgePairs, List.map_append, List.mem_append] at hpr ⊢
      rcases hpr with hold | hnew
      · exact Or.inl (h7 pr hold)
      · exact Or.inr hnew

theorem inv_remove_edge (g : GraphManager) (s t : String) (et : EdgeType)
    (h : GraphInv g)
    (hs : ∀ p ∈ g.edges, p.1 = s ++ "--" ++ et.value ++ "-->" ++ t →
      p.2.source_id = s ∧ p.2.target_id = t) :
    GraphInv (g.remove_edge s t et).1 := by
  obtain ⟨h1, h2, h3, h4, h5, h6, h7⟩ := h
  by_cases hc : (s ++ "--" ++ et.value ++ "-->" ++ t) ∈ dkeys g.edges
  on_goal 2 =>
    simpa [GraphManager.remove_edge, hc] using ⟨h1, h2, h3, h4, h5, h6, h7⟩
  obtain ⟨p0, hp0, hp0k⟩ := (mem_dkeys _ _).mp hc
  have hp0st := hs p0 hp0 hp0k
  have hpair : (s, t) ∈ edgePairs g :=
    (mem_edgePairs _ _ _).mpr ⟨p0, hp0, hp0st.1, hp0st.2⟩
  have hnxp : (s, t) ∈ nxPairs g := h7 _ hpair
  have hany : g.nx_edges.any (fun q => q.1 == s && q.2.1 == t) = true :=
    (nx_any_iff _ _ _).mpr hnxp
  have hstate : (g.remove_edge s t et).1 =
      { g with
          edges := g.edges.filter (fun p => p.1 ≠ s ++ "--" ++ et.value ++ "-->" ++ t),
          nx_edges := g.nx_edges.filter (fun q => !(q.1 == s && q.2.1 == t)) } := by
    simp [GraphManager.remove_edge, hc, hany]
  have hA : ∀ a b : String,
      ((a, b) ∈ edgePairs { g with
          edges := g.edges.filter (fun p => p.1 ≠ s ++ "--" ++ et.value ++ "-->" ++ t),
          nx_edges := g.nx_edges.filter (fun q => !(q.1 == s && q.2.1 == t)) } ↔
        (a, b) ∈ edgePairs g ∧ (a, b) ≠ (s, t)) := by
    intro a b
    constructor
    · intro hab
      obtain ⟨p, hpf, hpa, hpb⟩ := (mem_edgePairs _ _ _).mp hab
      rw [List.mem_filter] at hpf
      obtain ⟨hpm, hpc⟩ := hpf
      simp only [ne_eq, decide_not, Bool.not_eq_true', decide_eq_false_iff_not]
        at hpc
      refine ⟨(mem_edgePairs _ _ _).mpr ⟨p, hpm, hpa, hpb⟩, ?_⟩
      intro heqq
      rw [Prod.mk.injEq] at heqq
      have hpp0 : p = p0 := by
        apply List.inj_on_of_nodup_map h4 hpm hp0
        show (p.2.source_id, p.2.target_id) = (p0.2.source_id, p0.2.target_id)
        rw [hpa, hpb, heqq.1, heqq.2, hp0st.1, hp0st.2]
      exact hpc (hpp0 ▸ hp0k)
    · rintro ⟨hab, hne⟩
      obtain ⟨p, hpm, hpa, hpb⟩ := (mem_edgePairs _ _ _).mp hab
      refine (mem_edgePairs _ _ _).mpr ⟨p, ?_, hpa, hpb⟩
      rw [List.mem_filter]
      refine ⟨hpm, ?_⟩
      simp only [ne_eq, decide_not, Bool.not_eq_true', decide_eq_false_iff_not]
      intro heq
      have hst := hs p hpm heq
      exact hne (by rw [← hpa, ← hpb, hst.1, hst.2])
  have hB : ∀ a b : String,
      ((a, b) ∈ nxPairs { g with
          edges := g.edges.filter (fun p => p.1 ≠ s ++ "--" ++ et.value ++ "-->" ++ t),
          nx_edges := g.nx_edges.filter (fun q => !(q.1 == s && q.2.1 == t)) } ↔
        (a, b) ∈ nxPairs g ∧ (a, b) ≠ (s, t)) := by
    intro a b
    constructor
    · intro hab
      obtain ⟨q, hqf, hqa, hqb⟩ := (mem_nxPairs _ _ _).mp hab
      rw [List.mem_filter] at hqf
      obtain ⟨hqm, hqc⟩ := hqf
      simp only [Bool.not_eq_true', Bool.and_eq_false_iff,
        beq_eq_false_iff_ne] at hqc
      refine ⟨(mem_nxPairs _ _ _).mpr ⟨q, hqm, hqa, hqb⟩, ?_⟩
      intro heqq
      rw [Prod.mk.injEq] at heqq
      rcases hqc with hq1 | hq2
      · exact hq1 (by rw [hqa, heqq.1])
      · exact hq2 (by rw [hqb, heqq.2])
    · rintro ⟨hab, hne⟩
      obtain ⟨q, hqm, hqa, hqb⟩ := (mem_nxPairs _ _ _).mp hab
      refine (mem_nxPairs _ _ _).mpr ⟨q, ?_, hqa, hqb⟩
      rw [List.mem_filter]
      refine ⟨hqm, ?_⟩
      simp only [Bool.not_eq_true', Bool.and_eq_false_iff,
        beq_eq_false_iff_ne]
      by_cases hqa' : q.1 = s
      · right
        intro hqb'
        exact hne (by rw [← hqa, ← hqb, hqa', hqb'])
      · left
        exact hqa'
  rw [hstate]
  refine ⟨h1, ?_, ?_, ?_, ?_, ?_, ?_⟩
  · exact fun p hp => h2 p (List.mem_of_mem_filter hp)
  · exact List.Nodup.sublist ((List.filter_sublist _).map Prod.fst) h3
  · exact List.Nodup.sublist ((List.filter_sublist _).map _) h4
  · exact List.Nodup.sublist ((List.filter_sublist _).map _) h5
  · rintro ⟨a, b⟩ hpr
    obtain ⟨hm, hne⟩ := (hB a b).mp hpr
    exact (hA a b).mpr ⟨h6 _ hm, hne⟩
  · rintro ⟨a, b⟩ hpr
    obtain ⟨hm, hne⟩ := (hA a b).mp hpr
    exact (hB a b).mpr ⟨h7 _ hm, hne⟩

/-- C9 (counterexample): after adding two edges with the same source and
target but different kinds and removing one of them, the remaining edge is
still in the edge collection while the target is no longer a successor of
the source — the adjacency structure and the edge collection disagree. -/
theorem parallel_edge_breaks_adjacency :
    (∃ p ∈ parallelG.edges, p.2.source_id = "A" ∧ p.2.target_id = "B") ∧
    "B" ∉ parallelG.successors "A" := by
  exact ⟨⟨("A--constrains-->B", edgeAB2), by decide, by decide, by decide⟩,
    by decide⟩

/-- C9 (amended): every graph operation preserves the consistency of the
adjacency structure with the edge collection — a node `t` is among the
successors of `s` iff some stored edge runs from `s` to `t` — provided no
operation adds an edge parallel to an existing one between the same ordered
node pair (with a different kind), and removed edge ids denote their own
endpoints; parallel edges of different kinds collapse into the single
`networkx` edge, which is what the counterexample exploits. -/
theorem ops_preserve_adjacency_consistency (g : GraphManager) (op : GraphOp)
    (hinv : GraphInv g) (hsafe : SafeStep g op) :
    GraphInv (execOp g op).1 ∧
    ∀ s t : String, t ∈ (execOp g op).1.successors s ↔
      ∃ p ∈ (execOp g op).1.edges, p.2.source_id = s ∧ p.2.target_id = t := by
  have main : GraphInv (execOp g op).1 := by
    cases op with
    | addNodeOp n => exact inv_add_node g n hinv
    | updateNodeOp n => exact inv_update_node g n hinv
    | removeNodeOp nid => exact inv_remove_node g nid hinv
    | addEdgeOp e => exact inv_add_edge g e hinv hsafe
    | removeEdgeOp s t et => exact inv_remove_edge g s t et hinv hsafe
  refine ⟨main, fun s t => ?_⟩
  rw [mem_successors_iff, ← mem_edgePairs]
  exact ⟨fun hm => main.2.2.2.2.2.1 _ hm, fun hm => main.2.2.2.2.2.2 _ hm⟩

/-- C9 witness: on the well-formed two-node, one-edge graph, removing that
edge is a safe step and the resulting state keeps successors and stored
edges consistent. -/
theorem ops_preserve_adjacency_consistency_witness :
    (GraphInv gAB ∧ SafeStep gAB (.removeEdgeOp "A" "B" .GENERATES)) ∧
    (GraphInv (execOp gAB (.removeEdgeOp "A" "B" .GENERATES)).1 ∧
     ∀ s t : String,
       t ∈ (execOp gAB (.removeEdgeOp "A" "B" .GENERATES)).1.successors s ↔
       ∃ p ∈ (execOp gAB (.removeEdgeOp "A" "B" .GENERATES)).1.edges,
         p.2.source_id = s ∧ p.2.target_id = t) :=
  ⟨⟨by decide, by decide⟩,
   ops_preserve_adjacency_consistency gAB (.removeEdgeOp "A" "B" .GENERATES)
     (by decide) (by decide)⟩
